import Mathlib

/-!
Shallow embedding of the `mermaid-builder` library core (generic diagram
data model, builders, style system, and the tabbed rendering protocol),
together with theorems settling the specification claims.

Conventions of the embedding:
* Rust `u64`/`usize`/`u8`/`u16` values are modelled as `Nat` (none of the
  verified operations can overflow: ids and counts only grow by 1 per
  operation and are never arithmetically combined).
* `Rc<T>` shared references are modelled as plain values; Rust compares
  `Rc<T>` via the `PartialEq` of `T`, so membership checks translate to
  value equality.
* Fallible builder methods (`Result<T, E>`) are modelled with `Except`.
* `&mut self` diagram-builder methods are modelled as functions returning
  a pair of the method result and the updated builder; on failure the
  original builder is returned unchanged, mirroring the fact that the
  Rust method body performs no mutation before any early `return Err`.
* `Display`/`TabbedDisplay` implementations are modelled as functions to
  `String`, translating each `write!`/`writeln!` into string appends.
-/

namespace Mermaid

/-- Modelled from the spec: left/right `{` and `}` written via escapes so that
string literals stay faithful to the Rust format strings. -/
def lbrace : String := "\x7b"

/-- Right brace character as a string. -/
def rbrace : String := "\x7d"

/-- Modelled from the spec: the fixed node-letter prefix — "All identifiers are
rendered with a fixed node-letter / edge-letter prefix followed by the numeric
id (e.g., node id 3 renders as `v3`, edge id 1 as `e1`)." The defining module
(`src/shared.rs`) is not part of the provided sources; the value `"v"` is also
pinned by the in-repository tests (`v1@{shape: circle, ...}`). -/
def NODE_LETTER : String := "v"

/-- Modelled from the spec: the fixed edge-letter prefix (see `NODE_LETTER`);
pinned by in-repository tests (`e1@{curve: stepAfter}`). -/
def EDGE_LETTER : String := "e"

/-- Modelled from the spec: an RGB color (`src/shared/style_class/color.rs` is
not part of the provided sources). Only equality, ordering and the lowercase
hex rendering `#rrggbb` (pinned by in-repository tests, e.g. `#ff0000`) are
relied upon. -/
structure Color where
  r : Nat
  g : Nat
  b : Nat
  deriving DecidableEq, Ord

/-- One lowercase hexadecimal digit. -/
def hexDigit (n : Nat) : String :=
  if n < 10 then toString n
  else if n = 10 then "a" else if n = 11 then "b" else if n = 12 then "c"
  else if n = 13 then "d" else if n = 14 then "e" else "f"

/-- Two-digit lowercase hexadecimal rendering of a byte. -/
def hexByte (n : Nat) : String := hexDigit (n / 16 % 16) ++ hexDigit (n % 16)

/-- Modelled from the spec: `Color::to_hex`, rendering `#rrggbb` in lowercase
(pinned by in-repository tests: `Color::from((255, 0, 0))` renders as
`#ff0000`). -/
def Color.to_hex (c : Color) : String := "#" ++ hexByte c.r ++ hexByte c.g ++ hexByte c.b

/-- Measurement unit used in style class definitions
(`src/shared/style_class/units.rs`). -/
inductive Unit where
  | Pixel (value : Nat)
  | Point (value : Nat)
  deriving DecidableEq, Ord

/-- Display for `Unit`. -/
def Unit.fmt : Unit → String
  | .Pixel value => toString value ++ "px"
  | .Point value => toString value ++ "pt"

/-- Font weight (`src/shared/style_class/font_weight.rs`). -/
inductive FontWeight where
  | Normal
  | Bold
  | Bolder
  | Lighter
  | Number (value : Nat)
  deriving DecidableEq, Ord

/-- Display for `FontWeight`. -/
def FontWeight.fmt : FontWeight → String
  | .Normal => "normal"
  | .Bold => "bold"
  | .Bolder => "bolder"
  | .Lighter => "lighter"
  | .Number value => toString value

/-- Font style (`src/shared/style_class/font_style.rs`). -/
inductive FontStyle where
  | Normal
  | Italic
  | Oblique
  deriving DecidableEq, Ord

/-- Display for `FontStyle`. -/
def FontStyle.fmt : FontStyle → String
  | .Normal => "normal"
  | .Italic => "italic"
  | .Oblique => "oblique"

/-- Rust `StyleProperty` (`src/shared/style_class/style_properties.rs`): all
supported style properties for Mermaid class definitions. -/
inductive StyleProperty where
  | Fill (color : Color)
  | Stroke (color : Color)
  | Color (color : Color)
  | StrokeWidth (unit : Unit)
  | FontSize (unit : Unit)
  | FontWeight (weight : FontWeight)
  | FontStyle (style : FontStyle)
  | StrokeDasharray (length : Nat) (gap : Nat)
  | StrokeDashoffset (offset : Nat)
  | Opacity (value : Nat)
  | BorderRadius (radius : Unit)
  deriving DecidableEq, Ord

/-- Rust `StyleProperty::is_same_type`: whether the provided style property is of
the same variant as `self`, regardless of payload. -/
def StyleProperty.is_same_type : StyleProperty → StyleProperty → Bool
  | .Fill _, .Fill _ => true
  | .Stroke _, .Stroke _ => true
  | .Color _, .Color _ => true
  | .StrokeWidth _, .StrokeWidth _ => true
  | .FontSize _, .FontSize _ => true
  | .FontWeight _, .FontWeight _ => true
  | .FontStyle _, .FontStyle _ => true
  | .StrokeDasharray _ _, .StrokeDasharray _ _ => true
  | .StrokeDashoffset _, .StrokeDashoffset _ => true
  | .Opacity _, .Opacity _ => true
  | .BorderRadius _, .BorderRadius _ => true
  | _, _ => false

/-- Two-digit zero-padded decimal rendering, used for the fractional part of
the opacity value. -/
def pad2 (n : Nat) : String :=
  if n < 10 then "0" ++ toString n else toString n

/-- Display for `StyleProperty`. The `Opacity` arm renders
`f32::from(value) / 100.0` with `{:.2}`; for the byte range this float
formatting is exact and equals the decimal `value / 100` with two fractional
digits, which is what is computed here. -/
def StyleProperty.fmt : StyleProperty → String
  | .Fill color => "fill: " ++ color.to_hex
  | .Stroke color => "stroke: " ++ color.to_hex
  | .Color color => "color: " ++ color.to_hex
  | .StrokeWidth unit => "stroke-width: " ++ unit.fmt
  | .FontSize unit => "font-size: " ++ unit.fmt
  | .FontWeight weight => "font-weight: " ++ weight.fmt
  | .FontStyle style => "font-style: " ++ style.fmt
  | .StrokeDasharray length gap => "stroke-dasharray: " ++ toString length ++ ", " ++ toString gap
  | .StrokeDashoffset offset => "stroke-dashoffset: " ++ toString offset
  | .Opacity value => "opacity: " ++ toString (value / 100) ++ "." ++ pad2 (value % 100)
  | .BorderRadius radius => "rx: " ++ radius.fmt ++ ", ry: " ++ radius.fmt

/-- Rust `StyleClass` (`src/shared/style_class.rs`): a named set of style
properties. -/
structure StyleClass where
  name : String
  properties : List StyleProperty
  deriving DecidableEq

/-- Rust `StyleClassError` (`src/shared/style_class/error.rs`). -/
inductive StyleClassError where
  | EmptyName
  | DuplicateClass (name : String)
  | DuplicateProperty (property : StyleProperty)
  | UnknownClass (style_class : StyleClass)
  | MissingName
  | MissingProperties
  deriving DecidableEq

/-- Rust `ArrowShape` (`src/shared/arrow_shape.rs`). -/
inductive ArrowShape where
  | Normal
  | Sharp
  | X
  | Circle
  | Triangle
  | Star
  | ZeroOrOne
  | ExactlyOne
  | ZeroOrMore
  | OneOrMore
  deriving DecidableEq, Ord

/-- Rust `ArrowShape::left`: the left-oriented arrow glyph. -/
def ArrowShape.left : ArrowShape → String
  | .Normal => "<"
  | .Sharp => "("
  | .X => "x"
  | .Circle => "o"
  | .Triangle => "<|"
  | .Star => "*"
  | .ZeroOrOne => "|o"
  | .ExactlyOne => "||"
  | .ZeroOrMore => rbrace ++ "o"
  | .OneOrMore => rbrace ++ "|"

/-- Rust `ArrowShape::right`: the right-oriented arrow glyph. -/
def ArrowShape.right : ArrowShape → String
  | .Normal => ">"
  | .Sharp => ")"
  | .X => "x"
  | .Circle => "o"
  | .Triangle => "|>"
  | .Star => "*"
  | .ZeroOrOne => "o|"
  | .ExactlyOne => "||"
  | .ZeroOrMore => "o" ++ lbrace
  | .OneOrMore => "|" ++ lbrace

/-- Rust `NodeError` (`src/errors/node_error.rs`). -/
inductive NodeError where
  | EmptyLabel
  | EmptyId
  | InvalidId (id : String)
  | DuplicateNode (label : String)
  | MissingId
  | MissingLabel
  | MissingSubnodes
  deriving DecidableEq

/-- Rust `EdgeError` (`src/errors/edge_error.rs`). -/
inductive EdgeError where
  | EmptyLabel
  | IncompatibleLeftArrowShape (shape : ArrowShape)
  | IncompatibleRightArrowShape (shape : ArrowShape)
  | SourceNodeNotFound (label : String)
  | DestinationNodeNotFound (label : String)
  | MissingSource
  | MissingDestination
  | MissingId
  | InvalidLength
  deriving DecidableEq

/-- Rust `ConfigError` (`src/errors/config_error.rs`): the only variant used by the
configuration builders is `EmptyTitle`. -/
inductive ConfigError where
  | EmptyTitle
  deriving DecidableEq

/-- Top-level `Error` (`src/errors.rs`), wrapping each category. -/
inductive Error where
  | Node (e : NodeError)
  | Edge (e : EdgeError)
  | Config (e : ConfigError)
  | StyleClass (e : StyleClassError)
  deriving DecidableEq

/-- Rust `StyleClassBuilder` (`src/shared/style_class/builder.rs`). -/
structure StyleClassBuilder where
  name : Option String
  properties : List StyleProperty
  deriving DecidableEq

instance : Inhabited StyleClassBuilder := ⟨⟨none, []⟩⟩

/-- Rust `StyleClassBuilder::name`: sets the name, failing on the empty string. -/
def StyleClassBuilder.name_ (self : StyleClassBuilder) (name : String) :
    Except StyleClassError StyleClassBuilder :=
  if name = "" then .error .EmptyName
  else .ok { self with name := some name }

/-- Rust `StyleClassBuilder::property`: rejects a property that is already present
(by full value equality, `self.properties.contains(&property)`), otherwise
appends it. -/
def StyleClassBuilder.property (self : StyleClassBuilder) (property : StyleProperty) :
    Except StyleClassError StyleClassBuilder :=
  if self.properties.contains property then
    .error (.DuplicateProperty property)
  else
    .ok { self with properties := self.properties ++ [property] }

/-- Rust `StyleClassBuilder::build` (via `TryFrom`): fails with `MissingProperties`
on an empty property list, then with `MissingName` when no name was set. -/
def StyleClassBuilder.build (self : StyleClassBuilder) :
    Except StyleClassError StyleClass :=
  if self.properties.isEmpty then .error .MissingProperties
  else
    match self.name with
    | none => .error .MissingName
    | some n => .ok { name := n, properties := self.properties }

/-- Rust `Direction` (`src/shared/generic_configuration/direction.rs`); the Rust
`#[default]` is `LeftToRight`. -/
inductive Direction where
  | LeftToRight
  | TopToBottom
  | RightToLeft
  | BottomToTop
  deriving DecidableEq, Ord

instance : Inhabited Direction := ⟨.LeftToRight⟩

/-- Display for `Direction`. -/
def Direction.fmt : Direction → String
  | .LeftToRight => "LR"
  | .TopToBottom => "TB"
  | .RightToLeft => "RL"
  | .BottomToTop => "BT"

/-- Rust `Renderer` (`src/shared/generic_configuration/renderers.rs`); the Rust
`#[default]` is `Dagre`. -/
inductive Renderer where
  | Dagre
  | EclipseLayoutKernel
  deriving DecidableEq, Ord

instance : Inhabited Renderer := ⟨.Dagre⟩

/-- Display for `Renderer`. -/
def Renderer.fmt : Renderer → String
  | .Dagre => "dagre"
  | .EclipseLayoutKernel => "elk"

/-- Rust `Theme` (`src/shared/generic_configuration/theme.rs`); the Rust
`#[default]` is `Default`. -/
inductive Theme where
  | MermaidChart
  | Neo
  | NeoDark
  | Default
  | Forest
  | Base
  | Dark
  | Neutral
  | Redux
  | ReduxDark
  deriving DecidableEq, Ord

instance : Inhabited Theme := ⟨.Default⟩

/-- Display for `Theme`. -/
def Theme.fmt : Theme → String
  | .MermaidChart => "mc"
  | .Neo => "neo"
  | .NeoDark => "neo-dark"
  | .Default => "default"
  | .Forest => "forest"
  | .Base => "base"
  | .Dark => "dark"
  | .Neutral => "neutral"
  | .Redux => "redux"
  | .ReduxDark => "redux-dark"

/-- Rust `Look` (`src/shared/generic_configuration/look.rs`); the Rust `#[default]`
is `Classic`. -/
inductive Look where
  | Neo
  | HandDrawn
  | Classic
  deriving DecidableEq, Ord

instance : Inhabited Look := ⟨.Classic⟩

/-- Display for `Look`. -/
def Look.fmt : Look → String
  | .Neo => "neo"
  | .HandDrawn => "handDrawn"
  | .Classic => "classic"

/-- Rust `GenericConfiguration` (`src/shared/generic_configuration.rs`). -/
structure GenericConfiguration where
  title : Option String
  renderer : Renderer
  direction : Direction
  theme : Theme
  look : Look
  deriving DecidableEq

instance : Inhabited GenericConfiguration := ⟨⟨none, default, default, default, default⟩⟩

/-- Rust `GenericConfigurationBuilder` (`src/shared/generic_configuration.rs`); the
`TryFrom` conversion into `GenericConfiguration` is a plain field move, so the
builder and the configuration share one shape. -/
structure GenericConfigurationBuilder where
  title : Option String
  renderer : Renderer
  direction : Direction
  theme : Theme
  look : Look
  deriving DecidableEq

instance : Inhabited GenericConfigurationBuilder := ⟨⟨none, default, default, default, default⟩⟩

/-- Rust `GenericConfigurationBuilder::build`. -/
def GenericConfigurationBuilder.build (self : GenericConfigurationBuilder) :
    Except ConfigError GenericConfiguration :=
  .ok ⟨self.title, self.renderer, self.direction, self.theme, self.look⟩

/-- Rust `GenericConfigurationBuilder::title`: fails on the empty string. -/
def GenericConfigurationBuilder.title_ (self : GenericConfigurationBuilder) (title : String) :
    Except ConfigError GenericConfigurationBuilder :=
  if title = "" then .error .EmptyTitle
  else .ok { self with title := some title }

/-- Rust `GenericConfigurationBuilder::renderer`. -/
def GenericConfigurationBuilder.renderer_ (self : GenericConfigurationBuilder)
    (renderer : Renderer) : GenericConfigurationBuilder :=
  { self with renderer := renderer }

/-- Rust `GenericConfigurationBuilder::direction`. -/
def GenericConfigurationBuilder.direction_ (self : GenericConfigurationBuilder)
    (direction : Direction) : GenericConfigurationBuilder :=
  { self with direction := direction }

/-- Rust `GenericConfigurationBuilder::theme` (exposed through the flowchart
configuration builder). -/
def GenericConfigurationBuilder.theme_ (self : GenericConfigurationBuilder)
    (theme : Theme) : GenericConfigurationBuilder :=
  { self with theme := theme }

/-- Rust `GenericConfigurationBuilder::look` (exposed through the flowchart
configuration builder). -/
def GenericConfigurationBuilder.look_ (self : GenericConfigurationBuilder)
    (look : Look) : GenericConfigurationBuilder :=
  { self with look := look }

/-- Rust `CurveStyle` (`src/diagrams/flowchart/curve_styles.rs`); the Rust
`#[default]` is `Basis`. -/
inductive CurveStyle where
  | Basis
  | BumpX
  | BumpY
  | Cardinal
  | CatmullRom
  | Linear
  | MonotoneX
  | MonotoneY
  | Natural
  | Step
  | StepAfter
  | StepBefore
  deriving DecidableEq, Ord

instance : Inhabited CurveStyle := ⟨.Basis⟩

/-- Display for `CurveStyle`. -/
def CurveStyle.fmt : CurveStyle → String
  | .Basis => "basis"
  | .BumpX => "bumpX"
  | .BumpY => "bumpY"
  | .Cardinal => "cardinal"
  | .CatmullRom => "catmullRom"
  | .Linear => "linear"
  | .MonotoneX => "monotoneX"
  | .MonotoneY => "monotoneY"
  | .Natural => "natural"
  | .Step => "step"
  | .StepAfter => "stepAfter"
  | .StepBefore => "stepBefore"

/-- Rust `FlowchartConfiguration` (`src/diagrams/flowchart/configuration.rs`). -/
structure FlowchartConfiguration where
  generic : GenericConfiguration
  markdown_auto_wrap : Bool
  html_labels : Bool
  curve_style : CurveStyle
  deriving DecidableEq

instance : Inhabited FlowchartConfiguration := ⟨⟨default, false, false, default⟩⟩

/-- Rust `FlowchartConfiguration::title` (via the `Configuration` trait). -/
def FlowchartConfiguration.title (self : FlowchartConfiguration) : Option String :=
  self.generic.title

/-- Rust `FlowchartConfiguration::direction`. -/
def FlowchartConfiguration.direction (self : FlowchartConfiguration) : Direction :=
  self.generic.direction

/-- Rust `FlowchartConfiguration::renderer`. -/
def FlowchartConfiguration.renderer (self : FlowchartConfiguration) : Renderer :=
  self.generic.renderer

/-- Rust `FlowchartConfiguration::theme`. -/
def FlowchartConfiguration.theme (self : FlowchartConfiguration) : Theme :=
  self.generic.theme

/-- Rust `FlowchartConfiguration::look`. -/
def FlowchartConfiguration.look (self : FlowchartConfiguration) : Look :=
  self.generic.look

/-- Rust `<FlowchartConfiguration as Display>::fmt`: the empty string when the
title is unset and the renderer is the default; otherwise the front-matter
block. Each `writeln!` of the source is one `++ "\n"` piece, concatenated
right-associatively. -/
def FlowchartConfiguration.fmt (self : FlowchartConfiguration) : String :=
  if self.generic.title = none ∧ self.renderer = default then ""
  else
    "---\n" ++
    ("config:\n" ++
    ("  theme: " ++ self.theme.fmt ++ "\n" ++
    ("  look: " ++ self.look.fmt ++ "\n" ++
    ("  flowchart:\n" ++
    ("    defaultRenderer: \"" ++ self.renderer.fmt ++ "\"\n" ++
    ((match self.generic.title with
      | some title => "title: " ++ title ++ "\n"
      | none => "") ++
    "---\n"))))))

/-- Rust `FlowchartConfigurationBuilder`
(`src/diagrams/flowchart/configuration/builder.rs`). -/
structure FlowchartConfigurationBuilder where
  generic : GenericConfigurationBuilder
  html_labels : Bool
  markdown_auto_wrap : Bool
  curve_style : CurveStyle
  deriving DecidableEq

instance : Inhabited FlowchartConfigurationBuilder := ⟨⟨default, false, false, default⟩⟩

/-- Rust `FlowchartConfigurationBuilder::build`. -/
def FlowchartConfigurationBuilder.build (self : FlowchartConfigurationBuilder) :
    Except ConfigError FlowchartConfiguration := do
  let g ← self.generic.build
  .ok ⟨g, self.markdown_auto_wrap, self.html_labels, self.curve_style⟩

/-- Rust `FlowchartConfigurationBuilder::title`. -/
def FlowchartConfigurationBuilder.title_ (self : FlowchartConfigurationBuilder)
    (title : String) : Except ConfigError FlowchartConfigurationBuilder := do
  let g ← self.generic.title_ title
  .ok { self with generic := g }

/-- Rust `FlowchartConfigurationBuilder::renderer`. -/
def FlowchartConfigurationBuilder.renderer_ (self : FlowchartConfigurationBuilder)
    (renderer : Renderer) : FlowchartConfigurationBuilder :=
  { self with generic := self.generic.renderer_ renderer }

/-- Rust `FlowchartConfigurationBuilder::theme`. -/
def FlowchartConfigurationBuilder.theme_ (self : FlowchartConfigurationBuilder)
    (theme : Theme) : FlowchartConfigurationBuilder :=
  { self with generic := self.generic.theme_ theme }

/-- Rust `FlowchartConfigurationBuilder::look`. -/
def FlowchartConfigurationBuilder.look_ (self : FlowchartConfigurationBuilder)
    (look : Look) : FlowchartConfigurationBuilder :=
  { self with generic := self.generic.look_ look }

/-- Rust `FlowchartConfigurationBuilder::direction`. -/
def FlowchartConfigurationBuilder.direction_ (self : FlowchartConfigurationBuilder)
    (direction : Direction) : FlowchartConfigurationBuilder :=
  { self with generic := self.generic.direction_ direction }

/-- Rust `Navigation` (`src/shared/click_event/navigation.rs`). -/
structure Navigation where
  url : String
  new_tab : Bool
  anchor : Bool
  tooltip : Option String
  deriving DecidableEq, Ord

/-- Display for `Navigation` (the `click {node}` lead is written by the node
renderer). -/
def Navigation.fmt (self : Navigation) : String :=
  (if self.anchor then "href" else "") ++
  (" \"" ++ self.url ++ "\"") ++
  (match self.tooltip with
   | some tooltip => " \"" ++ tooltip ++ "\""
   | none => "") ++
  (if self.new_tab then " _blank" else "")

/-- Modelled from the spec: `ClickEvent` (`src/shared/click_event.rs` is not
part of the provided sources); its navigation variant wraps `Navigation`, and
its display delegates to the navigation display, as pinned by in-repository
tests (`click v1 href "https://example.com" "Open link"`). -/
inductive ClickEvent where
  | Navigation (navigation : Navigation)
  deriving DecidableEq, Ord

/-- Display for `ClickEvent`. -/
def ClickEvent.fmt : ClickEvent → String
  | .Navigation navigation => navigation.fmt

/-- Rust `GenericNode` (`src/shared/generic_node.rs`). -/
structure GenericNode where
  id : Nat
  label : String
  classes : List StyleClass
  style : List StyleProperty
  deriving DecidableEq

/-- Rust `GenericNodeBuilder` (`src/shared/generic_node.rs`). -/
structure GenericNodeBuilder where
  id : Option Nat
  label : Option String
  classes : List StyleClass
  style : List StyleProperty
  deriving DecidableEq

instance : Inhabited GenericNodeBuilder := ⟨⟨none, none, [], []⟩⟩

/-- Rust `GenericNodeBuilder::id`: infallible setter. -/
def GenericNodeBuilder.id_ (self : GenericNodeBuilder) (id : Nat) : GenericNodeBuilder :=
  { self with id := some id }

/-- Rust `GenericNodeBuilder::get_id`. -/
def GenericNodeBuilder.get_id (self : GenericNodeBuilder) : Option Nat := self.id

/-- Rust `GenericNodeBuilder::label`: fails on the empty string. -/
def GenericNodeBuilder.label_ (self : GenericNodeBuilder) (label : String) :
    Except NodeError GenericNodeBuilder :=
  if label = "" then .error .EmptyLabel
  else .ok { self with label := some label }

/-- Rust `GenericNodeBuilder::style_class`: rejects a class whose name is already
attached. -/
def GenericNodeBuilder.style_class (self : GenericNodeBuilder) (style_class : StyleClass) :
    Except StyleClassError GenericNodeBuilder :=
  if self.classes.any (fun c => c.name == style_class.name) then
    .error (.DuplicateClass style_class.name)
  else
    .ok { self with classes := self.classes ++ [style_class] }

/-- Rust `GenericNodeBuilder::style_property`: rejects a property of the same
variant as one already attached (`is_same_type`). -/
def GenericNodeBuilder.style_property (self : GenericNodeBuilder) (property : StyleProperty) :
    Except StyleClassError GenericNodeBuilder :=
  if self.style.any (fun p => p.is_same_type property) then
    .error (.DuplicateProperty property)
  else
    .ok { self with style := self.style ++ [property] }

/-- Rust `GenericNodeBuilder::build` (via `TryFrom`): `MissingId` before
`MissingLabel`. -/
def GenericNodeBuilder.build (self : GenericNodeBuilder) : Except NodeError GenericNode :=
  match self.id with
  | none => .error .MissingId
  | some id =>
    match self.label with
    | none => .error .MissingLabel
    | some label => .ok ⟨id, label, self.classes, self.style⟩

/-- Modelled from the spec: `LineStyle` — "`line_style`: one of
{Solid, Thick, Dashed}" (its defining module `src/shared.rs` is not part of
the provided sources; the three variants and their segment glyphs are pinned
by the match arms in `class_edge.rs` and `flowchart_edge.rs`). The default is
`Solid`, the plain Mermaid line. -/
inductive LineStyle where
  | Solid
  | Thick
  | Dashed
  deriving DecidableEq, Ord

instance : Inhabited LineStyle := ⟨.Solid⟩

/-- Rust `FlowchartNodeShape` (`src/diagrams/flowchart/flowchart_node/shape.rs`);
the Rust `#[default]` is `Rectangle`. -/
inductive FlowchartNodeShape where
  | Rectangle
  | RoundEdges
  | StadiumShape
  | Subprocess
  | Cylinder
  | Circle
  | Odd
  | Diamond
  | Hexagon
  | LRParallelogram
  | LLParallelogram
  | Trapezoid
  | ReverseTrapezoid
  | DoubleCircle
  | NotchedRectangle
  | Linedrectangle
  | SmallCircle
  | FramedCircle
  | LongRectangle
  | Hourglass
  | LeftCurlyBrace
  | RightCurlyBrace
  | CurlyBraces
  | LightningBolt
  | Document
  | HalfRoundedRectangle
  | HorizontalCylinder
  | LinedCylinder
  | CurvedTrapezoid
  | DividedRectangle
  | SmallTriangle
  | WindowPane
  | FilledCircle
  | LinedDocument
  | NotchedPentagon
  | FlippedTriangle
  | SlopedRectangle
  | StackedDocument
  | StackedRectangle
  | Flag
  | BowTieRectangle
  | CrossedCircle
  | TaggedDocument
  | TaggedRectangle
  | FramedRectangle
  | TextBlock
  deriving DecidableEq, Ord

instance : Inhabited FlowchartNodeShape := ⟨.Rectangle⟩

/-- Display for `FlowchartNodeShape`. -/
def FlowchartNodeShape.fmt : FlowchartNodeShape → String
  | .Rectangle => "rect"
  | .RoundEdges => "rounded"
  | .StadiumShape => "stadium"
  | .Subprocess => "subproc"
  | .Cylinder => "cyl"
  | .Circle => "circle"
  | .Odd => "odd"
  | .Diamond => "diamond"
  | .Hexagon => "hex"
  | .LRParallelogram => "lean-r"
  | .LLParallelogram => "lean-l"
  | .Trapezoid => "trap-b"
  | .ReverseTrapezoid => "trap-t"
  | .DoubleCircle => "dbl-circ"
  | .NotchedRectangle => "notch-rect"
  | .Linedrectangle => "lin-rect"
  | .SmallCircle => "sm-circ"
  | .FramedCircle => "framed-circle"
  | .LongRectangle => "fork"
  | .Hourglass => "hourglass"
  | .LeftCurlyBrace => "comment"
  | .RightCurlyBrace => "brace-r"
  | .CurlyBraces => "braces"
  | .LightningBolt => "bolt"
  | .Document => "doc"
  | .HalfRoundedRectangle => "delay"
  | .HorizontalCylinder => "das"
  | .LinedCylinder => "lin-cyl"
  | .CurvedTrapezoid => "curv-trap"
  | .DividedRectangle => "div-rect"
  | .SmallTriangle => "tri"
  | .WindowPane => "win-pane"
  | .FilledCircle => "f-circ"
  | .LinedDocument => "lin-doc"
  | .NotchedPentagon => "notch-pent"
  | .FlippedTriangle => "flip-tri"
  | .SlopedRectangle => "sl-rect"
  | .StackedDocument => "docs"
  | .StackedRectangle => "processes"
  | .Flag => "flag"
  | .BowTieRectangle => "bow-rect"
  | .CrossedCircle => "cross-circ"
  | .TaggedDocument => "tag-doc"
  | .TaggedRectangle => "tag-rect"
  | .FramedRectangle => "fr-rect"
  | .TextBlock => "text"

/-- Lexicographic comparison of lists, mirroring the derived `Ord` of Rust
`Vec<T>`: elementwise, with the shorter list smaller on a tie. -/
def compareList (cmp : α → α → Ordering) : List α → List α → Ordering
  | [], [] => .eq
  | [], _ :: _ => .lt
  | _ :: _, [] => .gt
  | a :: as, b :: bs =>
    match cmp a b with
    | .eq => compareList cmp as bs
    | o => o

/-- Comparison for `StyleClass`, mirroring the Rust derived `Ord`
(lexicographic in field order). -/
def StyleClass.cmp (a b : StyleClass) : Ordering :=
  match compare a.name b.name with
  | .eq => compareList compare a.properties b.properties
  | o => o

/-- Comparison for `GenericNode`, mirroring the Rust derived `Ord`
(lexicographic in field order: id, label, classes, style). -/
def GenericNode.cmp (a b : GenericNode) : Ordering :=
  match compare a.id b.id with
  | .eq =>
    match compare a.label b.label with
    | .eq =>
      match compareList StyleClass.cmp a.classes b.classes with
      | .eq => compareList compare a.style b.style
      | o => o
    | o => o
  | o => o

/-- Rust `FlowchartNode` (`src/diagrams/flowchart/flowchart_node.rs`). The
`subnodes` field makes this a nested inductive: a subgraph node holds its
subnodes by (shared, immutable) reference, modelled as values. -/
inductive FlowchartNode where
  | mk (node : GenericNode) (click_event : Option ClickEvent)
      (shape : FlowchartNodeShape) (subnodes : List FlowchartNode)
      (direction : Option Direction)

/-- The underlying generic node of a flowchart node. -/
def FlowchartNode.node : FlowchartNode → GenericNode
  | .mk node _ _ _ _ => node

/-- The click event of a flowchart node. -/
def FlowchartNode.click_event : FlowchartNode → Option ClickEvent
  | .mk _ click_event _ _ _ => click_event

/-- The shape of a flowchart node. -/
def FlowchartNode.shape : FlowchartNode → FlowchartNodeShape
  | .mk _ _ shape _ _ => shape

/-- The subnodes of a flowchart node (`FlowchartNode::subnodes`). -/
def FlowchartNode.subnodes : FlowchartNode → List FlowchartNode
  | .mk _ _ _ subnodes _ => subnodes

/-- The subgraph direction of a flowchart node. -/
def FlowchartNode.direction : FlowchartNode → Option Direction
  | .mk _ _ _ _ direction => direction

/-- Rust `<FlowchartNode as Node>::id`. -/
def FlowchartNode.id (self : FlowchartNode) : Nat := self.node.id

/-- Rust `<FlowchartNode as Node>::label`. -/
def FlowchartNode.label (self : FlowchartNode) : String := self.node.label

/-- Rust `<FlowchartNode as Node>::classes`. -/
def FlowchartNode.classes (self : FlowchartNode) : List StyleClass := self.node.classes

/-- Rust `<FlowchartNode as Node>::styles`. -/
def FlowchartNode.styles (self : FlowchartNode) : List StyleProperty := self.node.style

/-- Rust `<FlowchartNode as Node>::is_compatible_arrow_shape`: flowchart nodes
accept `Normal`, `Circle` and `X`. -/
def FlowchartNode.is_compatible_arrow_shape (shape : ArrowShape) : Bool :=
  match shape with
  | .Normal => true
  | .Circle => true
  | .X => true
  | _ => false

mutual

/-- Decidable structural equality of flowchart nodes (the derived Rust
`PartialEq`). -/
def FlowchartNode.decEq : (a b : FlowchartNode) → Decidable (a = b)
  | .mk n1 c1 s1 sub1 d1, .mk n2 c2 s2 sub2 d2 =>
    haveI : Decidable (sub1 = sub2) := FlowchartNode.decEqList sub1 sub2
    decidable_of_iff (n1 = n2 ∧ c1 = c2 ∧ s1 = s2 ∧ sub1 = sub2 ∧ d1 = d2)
      (Iff.of_eq (FlowchartNode.mk.injEq n1 c1 s1 sub1 d1 n2 c2 s2 sub2 d2).symm)

/-- Decidable elementwise equality of flowchart node lists. -/
def FlowchartNode.decEqList : (as bs : List FlowchartNode) → Decidable (as = bs)
  | [], [] => isTrue rfl
  | [], _ :: _ => isFalse (by simp)
  | _ :: _, [] => isFalse (by simp)
  | a :: as, b :: bs =>
    haveI : Decidable (a = b) := FlowchartNode.decEq a b
    haveI : Decidable (as = bs) := FlowchartNode.decEqList as bs
    decidable_of_iff (a = b ∧ as = bs)
      (Iff.of_eq (List.cons.injEq a as b bs).symm)

end

instance : DecidableEq FlowchartNode := FlowchartNode.decEq

mutual

/-- Comparison for `FlowchartNode`, mirroring the Rust derived `Ord`
(lexicographic in field order: node, click_event, shape, subnodes,
direction). Used by `sort_unstable` in the node builder and the subgraph
exclusion list. -/
def FlowchartNode.cmp : FlowchartNode → FlowchartNode → Ordering
  | .mk n1 c1 s1 sub1 d1, .mk n2 c2 s2 sub2 d2 =>
    match GenericNode.cmp n1 n2 with
    | .eq =>
      match compare c1 c2 with
      | .eq =>
        match compare s1 s2 with
        | .eq =>
          match FlowchartNode.cmpList sub1 sub2 with
          | .eq => compare d1 d2
          | o => o
        | o => o
      | o => o
    | o => o

/-- Lexicographic comparison of flowchart node lists (derived `Ord` of
`Vec<Rc<FlowchartNode>>`). -/
def FlowchartNode.cmpList : List FlowchartNode → List FlowchartNode → Ordering
  | [], [] => .eq
  | [], _ :: _ => .lt
  | _ :: _, [] => .gt
  | a :: as, b :: bs =>
    match FlowchartNode.cmp a b with
    | .eq => FlowchartNode.cmpList as bs
    | o => o

end

/-- The boolean `le` induced by `FlowchartNode.cmp`, used for
`sort_unstable` (ascending by `Ord`). -/
def FlowchartNode.le (a b : FlowchartNode) : Bool :=
  match FlowchartNode.cmp a b with
  | .gt => false
  | _ => true

/-- Insertion of an element into a sorted list (helper of `sortUnstable`). -/
def insertSorted (le : α → α → Bool) (a : α) : List α → List α
  | [] => [a]
  | b :: bs => if le a b then a :: b :: bs else b :: insertSorted le a bs

/-- Rust `Vec::sort_unstable`: sorts ascending by the given order. (`sort_unstable`
promises an ascending reordering with no stability guarantee; insertion sort
is such a reordering and keeps the definition kernel-computable.) -/
def sortUnstable (le : α → α → Bool) : List α → List α
  | [] => []
  | a :: as => insertSorted le a (sortUnstable le as)

/-- Rust `FlowchartNodeBuilder`
(`src/diagrams/flowchart/flowchart_node/builder.rs`). -/
structure FlowchartNodeBuilder where
  builder : GenericNodeBuilder
  click_event : Option ClickEvent
  shape : FlowchartNodeShape
  subnodes : List FlowchartNode
  direction : Option Direction
  deriving DecidableEq

instance : Inhabited FlowchartNodeBuilder := ⟨⟨default, none, default, [], none⟩⟩

/-- Rust `FlowchartNodeBuilder::click_event`. -/
def FlowchartNodeBuilder.click_event_ (self : FlowchartNodeBuilder)
    (click_event : ClickEvent) : FlowchartNodeBuilder :=
  { self with click_event := some click_event }

/-- Rust `FlowchartNodeBuilder::shape`. -/
def FlowchartNodeBuilder.shape_ (self : FlowchartNodeBuilder)
    (shape : FlowchartNodeShape) : FlowchartNodeBuilder :=
  { self with shape := shape }

/-- Rust `FlowchartNodeBuilder::subnode`: rejects a subnode already present (by
value equality of the shared reference), else appends. -/
def FlowchartNodeBuilder.subnode (self : FlowchartNodeBuilder) (subnode : FlowchartNode) :
    Except NodeError FlowchartNodeBuilder :=
  if self.subnodes.contains subnode then
    .error (.DuplicateNode subnode.label)
  else
    .ok { self with subnodes := self.subnodes ++ [subnode] }

/-- Rust `FlowchartNodeBuilder::direction`. -/
def FlowchartNodeBuilder.direction_ (self : FlowchartNodeBuilder)
    (direction : Direction) : FlowchartNodeBuilder :=
  { self with direction := some direction }

/-- Rust `FlowchartNodeBuilder::id` (via the `NodeBuilder` trait). -/
def FlowchartNodeBuilder.id_ (self : FlowchartNodeBuilder) (id : Nat) : FlowchartNodeBuilder :=
  { self with builder := self.builder.id_ id }

/-- Rust `FlowchartNodeBuilder::get_id`. -/
def FlowchartNodeBuilder.get_id (self : FlowchartNodeBuilder) : Option Nat :=
  self.builder.get_id

/-- Rust `FlowchartNodeBuilder::label`. -/
def FlowchartNodeBuilder.label_ (self : FlowchartNodeBuilder) (label : String) :
    Except NodeError FlowchartNodeBuilder := do
  let b ← self.builder.label_ label
  .ok { self with builder := b }

/-- Rust `FlowchartNodeBuilder::style_class`. -/
def FlowchartNodeBuilder.style_class (self : FlowchartNodeBuilder) (style_class : StyleClass) :
    Except StyleClassError FlowchartNodeBuilder := do
  let b ← self.builder.style_class style_class
  .ok { self with builder := b }

/-- Rust `FlowchartNodeBuilder::style_property`. -/
def FlowchartNodeBuilder.style_property (self : FlowchartNodeBuilder)
    (property : StyleProperty) : Except StyleClassError FlowchartNodeBuilder := do
  let b ← self.builder.style_property property
  .ok { self with builder := b }

/-- Rust `FlowchartNodeBuilder::build` (via `TryFrom`): a set direction without
subnodes is `MissingSubnodes`; subnodes are sorted (`sort_unstable`, i.e.
ascending by the derived `Ord`) before the node is assembled; generic-builder
errors (`MissingId`, `MissingLabel`) propagate. -/
def FlowchartNodeBuilder.build (self : FlowchartNodeBuilder) :
    Except NodeError FlowchartNode :=
  if self.direction.isSome ∧ self.subnodes.isEmpty then
    .error .MissingSubnodes
  else
    match self.builder.build with
    | .error e => .error e
    | .ok node =>
      .ok (.mk node self.click_event self.shape
        (sortUnstable FlowchartNode.le self.subnodes) self.direction)

/-- Rust `GenericEdge` (`src/shared/generic_edge.rs`), generic over the node
type. -/
structure GenericEdge (ν : Type) where
  label : Option String
  source : ν
  destination : ν
  line_style : LineStyle
  left_arrow_shape : Option ArrowShape
  right_arrow_shape : Option ArrowShape
  deriving DecidableEq

/-- The `Node` capability (`src/traits/node.rs` is consumed through the
generic diagram): identity, label, declared style classes, declared style
properties, and the type-level arrow-shape compatibility predicate. -/
class MNode (ν : Type) where
  id : ν → Nat
  label : ν → String
  classes : ν → List StyleClass
  styles : ν → List StyleProperty
  is_compatible_arrow_shape : ArrowShape → Bool

instance flowchartMNode : MNode FlowchartNode where
  id := FlowchartNode.id
  label := FlowchartNode.label
  classes := FlowchartNode.classes
  styles := FlowchartNode.styles
  is_compatible_arrow_shape := FlowchartNode.is_compatible_arrow_shape

/-- Rust `GenericEdgeBuilder` (`src/shared/generic_edge.rs`). -/
structure GenericEdgeBuilder (ν : Type) where
  label : Option String
  source : Option ν
  destination : Option ν
  line_style : LineStyle
  left_arrow_shape : Option ArrowShape
  right_arrow_shape : Option ArrowShape
  deriving DecidableEq

instance : Inhabited (GenericEdgeBuilder ν) := ⟨⟨none, none, none, default, none, none⟩⟩

/-- Rust `GenericEdgeBuilder::label`: fails on the empty string. -/
def GenericEdgeBuilder.label_ (self : GenericEdgeBuilder ν) (label : String) :
    Except EdgeError (GenericEdgeBuilder ν) :=
  if label = "" then .error .EmptyLabel
  else .ok { self with label := some label }

/-- Rust `GenericEdgeBuilder::source`: infallible setter. -/
def GenericEdgeBuilder.source_ (self : GenericEdgeBuilder ν) (source : ν) :
    Except EdgeError (GenericEdgeBuilder ν) :=
  .ok { self with source := some source }

/-- Rust `GenericEdgeBuilder::destination`: infallible setter. -/
def GenericEdgeBuilder.destination_ (self : GenericEdgeBuilder ν) (destination : ν) :
    Except EdgeError (GenericEdgeBuilder ν) :=
  .ok { self with destination := some destination }

/-- Rust `GenericEdgeBuilder::line_style`. -/
def GenericEdgeBuilder.line_style_ (self : GenericEdgeBuilder ν) (style : LineStyle) :
    GenericEdgeBuilder ν :=
  { self with line_style := style }

/-- Rust `GenericEdgeBuilder::left_arrow_shape`: checks the node type's
compatibility predicate. -/
def GenericEdgeBuilder.left_arrow_shape_ [MNode ν] (self : GenericEdgeBuilder ν)
    (shape : ArrowShape) : Except EdgeError (GenericEdgeBuilder ν) :=
  if !(MNode.is_compatible_arrow_shape ν shape) then
    .error (.IncompatibleLeftArrowShape shape)
  else
    .ok { self with left_arrow_shape := some shape }

/-- Rust `GenericEdgeBuilder::right_arrow_shape`: checks the node type's
compatibility predicate. -/
def GenericEdgeBuilder.right_arrow_shape_ [MNode ν] (self : GenericEdgeBuilder ν)
    (shape : ArrowShape) : Except EdgeError (GenericEdgeBuilder ν) :=
  if !(MNode.is_compatible_arrow_shape ν shape) then
    .error (.IncompatibleRightArrowShape shape)
  else
    .ok { self with right_arrow_shape := some shape }

/-- Rust `GenericEdgeBuilder::build` (via `TryFrom`): `MissingSource` before
`MissingDestination`. -/
def GenericEdgeBuilder.build (self : GenericEdgeBuilder ν) :
    Except EdgeError (GenericEdge ν) :=
  match self.source with
  | none => .error .MissingSource
  | some source =>
    match self.destination with
    | none => .error .MissingDestination
    | some destination =>
      .ok ⟨self.label, source, destination, self.line_style,
        self.left_arrow_shape, self.right_arrow_shape⟩

/-- Rust `FlowchartEdge` (`src/diagrams/flowchart/flowchart_edge.rs`). -/
structure FlowchartEdge where
  id : Nat
  edge : GenericEdge FlowchartNode
  style_classes : List StyleClass
  style_properties : List StyleProperty
  curve_style : CurveStyle
  length : Nat
  deriving DecidableEq

/-- Rust `<FlowchartEdge as Edge>::label`. -/
def FlowchartEdge.label (self : FlowchartEdge) : Option String := self.edge.label

/-- Rust `<FlowchartEdge as Edge>::source`. -/
def FlowchartEdge.source (self : FlowchartEdge) : FlowchartNode := self.edge.source

/-- Rust `<FlowchartEdge as Edge>::destination`. -/
def FlowchartEdge.destination (self : FlowchartEdge) : FlowchartNode := self.edge.destination

/-- Rust `<FlowchartEdge as Edge>::classes`. -/
def FlowchartEdge.classes (self : FlowchartEdge) : List StyleClass := self.style_classes

/-- Rust `<FlowchartEdge as Edge>::line_style`. -/
def FlowchartEdge.line_style (self : FlowchartEdge) : LineStyle := self.edge.line_style

/-- Rust `FlowchartEdgeBuilder`
(`src/diagrams/flowchart/flowchart_edge/builder.rs`); the Rust `Default`
sets `length` to 1. -/
structure FlowchartEdgeBuilder where
  id : Option Nat
  edge_builder : GenericEdgeBuilder FlowchartNode
  style_classes : List StyleClass
  style_properties : List StyleProperty
  curve_style : CurveStyle
  length : Nat
  deriving DecidableEq

instance : Inhabited FlowchartEdgeBuilder := ⟨⟨none, default, [], [], default, 1⟩⟩

/-- Rust `FlowchartEdgeBuilder::id`: infallible setter. -/
def FlowchartEdgeBuilder.id_ (self : FlowchartEdgeBuilder) (id : Nat) : FlowchartEdgeBuilder :=
  { self with id := some id }

/-- Rust `FlowchartEdgeBuilder::style_class`: rejects a class of a name already
attached. -/
def FlowchartEdgeBuilder.style_class (self : FlowchartEdgeBuilder) (class_ : StyleClass) :
    Except StyleClassError FlowchartEdgeBuilder :=
  if self.style_classes.any (fun c => c.name == class_.name) then
    .error (.DuplicateClass class_.name)
  else
    .ok { self with style_classes := self.style_classes ++ [class_] }

/-- Rust `FlowchartEdgeBuilder::style_property`: rejects a property of a variant
already attached. -/
def FlowchartEdgeBuilder.style_property (self : FlowchartEdgeBuilder)
    (property : StyleProperty) : Except StyleClassError FlowchartEdgeBuilder :=
  if self.style_properties.any (fun p => p.is_same_type property) then
    .error (.DuplicateProperty property)
  else
    .ok { self with style_properties := self.style_properties ++ [property] }

/-- Rust `FlowchartEdgeBuilder::curve_style`. -/
def FlowchartEdgeBuilder.curve_style_ (self : FlowchartEdgeBuilder)
    (style : CurveStyle) : FlowchartEdgeBuilder :=
  { self with curve_style := style }

/-- Rust `FlowchartEdgeBuilder::length`. -/
def FlowchartEdgeBuilder.length_ (self : FlowchartEdgeBuilder) (length : Nat) :
    FlowchartEdgeBuilder :=
  { self with length := length }

/-- Rust `FlowchartEdgeBuilder::source` (via the `EdgeBuilder` trait). -/
def FlowchartEdgeBuilder.source_ (self : FlowchartEdgeBuilder) (node : FlowchartNode) :
    Except EdgeError FlowchartEdgeBuilder := do
  let b ← self.edge_builder.source_ node
  .ok { self with edge_builder := b }

/-- Rust `FlowchartEdgeBuilder::destination`. -/
def FlowchartEdgeBuilder.destination_ (self : FlowchartEdgeBuilder) (node : FlowchartNode) :
    Except EdgeError FlowchartEdgeBuilder := do
  let b ← self.edge_builder.destination_ node
  .ok { self with edge_builder := b }

/-- Rust `FlowchartEdgeBuilder::label`. -/
def FlowchartEdgeBuilder.label_ (self : FlowchartEdgeBuilder) (label : String) :
    Except EdgeError FlowchartEdgeBuilder := do
  let b ← self.edge_builder.label_ label
  .ok { self with edge_builder := b }

/-- Rust `FlowchartEdgeBuilder::line_style`. -/
def FlowchartEdgeBuilder.line_style_ (self : FlowchartEdgeBuilder) (style : LineStyle) :
    FlowchartEdgeBuilder :=
  { self with edge_builder := self.edge_builder.line_style_ style }

/-- Rust `FlowchartEdgeBuilder::build` (via `TryFrom`): zero length is
`InvalidLength`, a missing id is `MissingId`, then the generic edge builder
errors propagate. -/
def FlowchartEdgeBuilder.build (self : FlowchartEdgeBuilder) :
    Except EdgeError FlowchartEdge :=
  if self.length = 0 then .error .InvalidLength
  else
    match self.id with
    | none => .error .MissingId
    | some id =>
      match self.edge_builder.build with
      | .error e => .error e
      | .ok edge =>
        .ok ⟨id, edge, self.style_classes, self.style_properties,
          self.curve_style, self.length⟩

/-- The indentation prefix of the tabbed-display protocol:
`" ".repeat(tab_count * 2)`. -/
def indentOf (tab_count : Nat) : String :=
  String.mk (List.replicate (tab_count * 2) ' ')

/-- The style-property list as written by the node/edge style loops: the
first property is followed by a space, later ones are preceded by `", "` and
followed by a space. -/
def stylesJoin : List StyleProperty → String
  | [] => ""
  | style :: rest =>
    style.fmt ++ " " ++ String.join (rest.map (fun p => ", " ++ p.fmt ++ " "))

/-- Rust `<StyleClass as TabbedDisplay>::fmt_tabbed`: a `classDef` line with the
properties separated by bare commas. -/
def StyleClass.fmtTabbed (tab_count : Nat) (self : StyleClass) : String :=
  indentOf tab_count ++ "classDef " ++ self.name ++ " " ++
  (match self.properties with
   | [] => ""
   | property :: rest => property.fmt ++ String.join (rest.map (fun p => "," ++ p.fmt))) ++
  "\n"

mutual

/-- Rust `<FlowchartNode as TabbedDisplay>::fmt_tabbed`: a leaf node is one
`v<id>@{shape: ..., label: "..."}` line plus optional click line and `class`
lines; a subgraph node is a `subgraph` block with an optional `direction`
line, its subnodes at depth + 1 and a closing `end`; either way a trailing
`style` line is written when the node has style properties. -/
def FlowchartNode.fmtTabbed (tab_count : Nat) : FlowchartNode → String
  | .mk node click_event shape subnodes direction =>
    (if subnodes.isEmpty then
      indentOf tab_count ++ NODE_LETTER ++ toString node.id ++ "@" ++ lbrace ++
        "shape: " ++ shape.fmt ++ ", label: \"" ++ node.label ++ "\"" ++ rbrace ++ "\n" ++
      (match click_event with
       | some click_event =>
         indentOf tab_count ++ "click " ++ NODE_LETTER ++ toString node.id ++ " " ++
           click_event.fmt ++ "\n"
       | none => "") ++
      String.join (node.classes.map (fun c =>
        indentOf tab_count ++ "class " ++ NODE_LETTER ++ toString node.id ++ " " ++
          c.name ++ "\n"))
    else
      indentOf tab_count ++ "subgraph " ++ NODE_LETTER ++ toString node.id ++
        " [\"`" ++ node.label ++ "`\"]\n" ++
      (match direction with
       | some direction => indentOf tab_count ++ "    direction " ++ direction.fmt ++ "\n"
       | none => "") ++
      FlowchartNode.fmtTabbedList (tab_count + 1) subnodes ++
      indentOf tab_count ++ "end\n") ++
    (if !node.style.isEmpty then
      indentOf tab_count ++ "style " ++ NODE_LETTER ++ toString node.id ++ " " ++
        stylesJoin node.style ++ "\n"
    else "")

/-- Sequential rendering of a list of flowchart nodes (the `for` loop over a
subgraph's subnodes). -/
def FlowchartNode.fmtTabbedList (tab_count : Nat) : List FlowchartNode → String
  | [] => ""
  | n :: rest => FlowchartNode.fmtTabbed tab_count n ++ FlowchartNode.fmtTabbedList tab_count rest

end

/-- Rust `<FlowchartEdge as TabbedDisplay>::fmt_tabbed`: the edge line with the
segment glyphs chosen by line style and length, a decorated `e<id>@` prefix
when the edge carries a non-default curve style, classes or style
properties, then the optional `curve` line, `class` lines and a `linkStyle`
line. -/
def FlowchartEdge.fmtTabbed (tab_count : Nat) (self : FlowchartEdge) : String :=
  let indent := indentOf tab_count
  let segment :=
    match self.line_style with
    | .Solid => String.mk (List.replicate (2 + self.length) '-')
    | .Thick => String.mk (List.replicate (2 + self.length) '=')
    | .Dashed => "-" ++ String.mk (List.replicate self.length '.') ++ "-"
  let edge_prefix :=
    if self.curve_style ≠ default ∨ !self.style_classes.isEmpty ∨
        !self.style_properties.isEmpty then
      EDGE_LETTER ++ toString self.id ++ "@"
    else ""
  indent ++ NODE_LETTER ++ toString self.source.id ++ " " ++ edge_prefix ++
    (match self.edge.left_arrow_shape with
     | some shape => shape.left
     | none => "") ++
    segment ++
    (match self.edge.right_arrow_shape with
     | some shape => shape.right
     | none => "") ++
    (match self.label with
     | some label => "|\"`" ++ label ++ "`\"|"
     | none => "") ++
    " " ++ NODE_LETTER ++ toString self.destination.id ++ "\n" ++
  (if self.curve_style ≠ default then
    indent ++ EDGE_LETTER ++ toString self.id ++ "@" ++ lbrace ++ "curve: " ++
      self.curve_style.fmt ++ rbrace ++ "\n"
  else "") ++
  String.join (self.style_classes.map (fun c =>
    indent ++ "class " ++ EDGE_LETTER ++ toString self.id ++ " " ++ c.name ++ "\n")) ++
  (if !self.style_properties.isEmpty then
    indent ++ "linkStyle " ++ EDGE_LETTER ++ toString self.id ++ " " ++
      stylesJoin self.style_properties ++ "\n"
  else "")

/-- Rust `Visibility` (`src/diagrams/class_diagram/visibility.rs`). -/
inductive Visibility where
  | Public
  | Private
  | Protected
  | Package
  deriving DecidableEq

/-- Rust `ClassAttribute`
(`src/diagrams/class_diagram/class_node/class_attribute.rs`). -/
structure ClassAttribute where
  name : String
  attribute_type : String
  visibility : Visibility
  deriving DecidableEq

/-- Rust `Argument` (`src/diagrams/class_diagram/class_node/class_method.rs`). -/
structure Argument where
  name : String
  arg_type : String
  deriving DecidableEq

/-- Rust `ClassMethod` (`src/diagrams/class_diagram/class_node/class_method.rs`). -/
structure ClassMethod where
  name : String
  arguments : List Argument
  return_type : Option String
  visibility : Visibility
  deriving DecidableEq

/-- Rust `ClassNode` (`src/diagrams/class_diagram/class_node.rs`). -/
structure ClassNode where
  node : GenericNode
  click_event : Option ClickEvent
  annotation : Option String
  attributes : List ClassAttribute
  methods : List ClassMethod
  deriving DecidableEq

/-- Rust `<ClassNode as Node>::id`. -/
def ClassNode.id (self : ClassNode) : Nat := self.node.id

/-- Rust `<ClassNode as Node>::label`. -/
def ClassNode.label (self : ClassNode) : String := self.node.label

/-- Rust `<ClassNode as Node>::is_compatible_arrow_shape`: class-diagram nodes
accept `Triangle`, `Star`, `Circle` and `Normal`. -/
def ClassNode.is_compatible_arrow_shape (shape : ArrowShape) : Bool :=
  match shape with
  | .Triangle => true
  | .Star => true
  | .Circle => true
  | .Normal => true
  | _ => false

/-- Rust `Multiplicity` (`src/diagrams/class_diagram/class_edge/multiplicity.rs`). -/
inductive Multiplicity where
  | One
  | ZeroOrOne
  | OneOrMore
  | Many
  | N
  | ZeroToN
  | OneToN
  deriving DecidableEq

/-- Display for `Multiplicity`. -/
def Multiplicity.fmt : Multiplicity → String
  | .One => "1"
  | .ZeroOrOne => "0..1"
  | .OneOrMore => "1..*"
  | .Many => "*"
  | .N => "n"
  | .ZeroToN => "0..n"
  | .OneToN => "1..n"

/-- Rust `ClassEdge` (`src/diagrams/class_diagram/class_edge.rs`). -/
structure ClassEdge where
  edge : GenericEdge ClassNode
  left_multiplicity : Option Multiplicity
  right_multiplicity : Option Multiplicity
  deriving DecidableEq

/-- Rust `<ClassEdge as Edge>::label`. -/
def ClassEdge.label (self : ClassEdge) : Option String := self.edge.label

/-- Rust `<ClassEdge as Edge>::source`. -/
def ClassEdge.source (self : ClassEdge) : ClassNode := self.edge.source

/-- Rust `<ClassEdge as Edge>::destination`. -/
def ClassEdge.destination (self : ClassEdge) : ClassNode := self.edge.destination

/-- Rust `<ClassEdge as Edge>::line_style`. -/
def ClassEdge.line_style (self : ClassEdge) : LineStyle := self.edge.line_style

/-- Rust `<ClassEdge as TabbedDisplay>::fmt_tabbed`: one line
`v<src> <lm><larrow><segment><rarrow><rm> v<dst> : "\`label\`"`, where each
optional piece renders as the empty string when absent, the left
multiplicity carries a trailing space, the right multiplicity a leading
space, and the segment is `--`/`==`/`..` for `Solid`/`Thick`/`Dashed`. -/
def ClassEdge.fmtTabbed (tab_count : Nat) (self : ClassEdge) : String :=
  let indent := indentOf tab_count
  indent ++ NODE_LETTER ++ toString self.source.id ++ " " ++
    (match self.left_multiplicity with
     | some lm => lm.fmt ++ " "
     | none => "") ++
    (match self.edge.left_arrow_shape with
     | some shape => shape.left
     | none => "") ++
    (match self.line_style with
     | .Solid => "--"
     | .Thick => "=="
     | .Dashed => "..") ++
    (match self.edge.right_arrow_shape with
     | some shape => shape.right
     | none => "") ++
    (match self.right_multiplicity with
     | some rm => " " ++ rm.fmt
     | none => "") ++
    " " ++ NODE_LETTER ++ toString self.destination.id ++
    (match self.label with
     | some label => " : \"`" ++ label ++ "`\""
     | none => "") ++
    "\n"

/-- The `NodeBuilder` capability as consumed by the generic diagram builder:
reading and writing the id, and building the node. -/
class MNodeBuilder (β : Type) (ν : outParam Type) where
  get_id : β → Option Nat
  set_id : β → Nat → β
  build : β → Except NodeError ν

instance flowchartMNodeBuilder : MNodeBuilder FlowchartNodeBuilder FlowchartNode where
  get_id := FlowchartNodeBuilder.get_id
  set_id := FlowchartNodeBuilder.id_
  build := FlowchartNodeBuilder.build

/-- The `Edge` capability as consumed by the generic diagram builder: the
source and destination node references. -/
class MEdge (ε : Type) (ν : outParam Type) where
  source : ε → ν
  destination : ε → ν

instance flowchartMEdge : MEdge FlowchartEdge FlowchartNode where
  source := FlowchartEdge.source
  destination := FlowchartEdge.destination

/-- The `EdgeBuilder` capability as consumed by the generic diagram
builder: building the edge. -/
class MEdgeBuilder (δ : Type) (ε : outParam Type) where
  build : δ → Except EdgeError ε

instance flowchartMEdgeBuilder : MEdgeBuilder FlowchartEdgeBuilder FlowchartEdge where
  build := FlowchartEdgeBuilder.build

/-- The `ConfigurationBuilder` capability as consumed by the generic diagram
builder: building the configuration. -/
class MConfigurationBuilder (κ : Type) (γ : outParam Type) where
  build : κ → Except ConfigError γ

instance flowchartMConfigurationBuilder : MConfigurationBuilder FlowchartConfigurationBuilder FlowchartConfiguration where
  build := FlowchartConfigurationBuilder.build

/-- Rust `GenericDiagram` (`src/shared/generic_diagram.rs`), generic over the
node, edge and configuration types. -/
structure GenericDiagram (ν ε γ : Type) where
  style_classes : List StyleClass
  nodes : List ν
  edges : List ε
  configuration : γ
  deriving DecidableEq

/-- Rust `GenericDiagramBuilder` (`src/shared/generic_diagram.rs`): a wrapper
holding the diagram under construction. -/
structure GenericDiagramBuilder (ν ε γ : Type) where
  generic_diagram : GenericDiagram ν ε γ
  deriving DecidableEq

instance [Inhabited γ] : Inhabited (GenericDiagramBuilder ν ε γ) :=
  ⟨⟨[], [], [], default⟩⟩

/-- Rust `GenericDiagramBuilder::number_of_nodes`. -/
def GenericDiagramBuilder.number_of_nodes (self : GenericDiagramBuilder ν ε γ) : Nat :=
  self.generic_diagram.nodes.length

/-- Rust `GenericDiagramBuilder::number_of_edges`. -/
def GenericDiagramBuilder.number_of_edges (self : GenericDiagramBuilder ν ε γ) : Nat :=
  self.generic_diagram.edges.length

/-- Rust `GenericDiagramBuilder::get_node_by_id`: first node with the given id. -/
def GenericDiagramBuilder.get_node_by_id [MNode ν] (self : GenericDiagramBuilder ν ε γ)
    (id : Nat) : Option ν :=
  self.generic_diagram.nodes.find? (fun node => MNode.id node == id)

/-- Rust `GenericDiagramBuilder::get_style_class_by_name`: first style class with
the given name. -/
def GenericDiagramBuilder.get_style_class_by_name (self : GenericDiagramBuilder ν ε γ)
    (name : String) : Option StyleClass :=
  self.generic_diagram.style_classes.find? (fun sc => sc.name == name)

/-- Rust `GenericDiagramBuilder::configuration`: builds the configuration
(propagating its errors) and replaces the diagram's configuration
wholesale. The Rust method consumes `self`, so nothing survives a failure. -/
def GenericDiagramBuilder.configuration [MConfigurationBuilder κ γ]
    (self : GenericDiagramBuilder ν ε γ) (configuration : κ) :
    Except Error (GenericDiagramBuilder ν ε γ) :=
  match MConfigurationBuilder.build (γ := γ) configuration with
  | .error e => .error (.Config e)
  | .ok config =>
    .ok ⟨{ self.generic_diagram with configuration := config }⟩

/-- Rust `GenericDiagramBuilder::edge`: builds the edge (propagating edge-builder
errors), then requires the source and the destination, in that order, to be
members of the node collection (by value equality, as Rust compares
`Rc<Node>` through `PartialEq`); only then is the edge appended. The method
takes `&mut self`; the updated builder is returned next to the result and is
unchanged on failure. -/
def GenericDiagramBuilder.edge [DecidableEq ν] [MNode ν] [MEdge ε ν] [MEdgeBuilder δ ε]
    (self : GenericDiagramBuilder ν ε γ) (edge : δ) :
    Except Error ε × GenericDiagramBuilder ν ε γ :=
  match MEdgeBuilder.build (ε := ε) edge with
  | .error e => (.error (.Edge e), self)
  | .ok edge =>
    if !(self.generic_diagram.nodes.contains (MEdge.source (ν := ν) edge)) then
      (.error (.Edge (.SourceNodeNotFound (MNode.label (MEdge.source (ν := ν) edge)))), self)
    else if !(self.generic_diagram.nodes.contains (MEdge.destination (ν := ν) edge)) then
      (.error (.Edge (.DestinationNodeNotFound
        (MNode.label (MEdge.destination (ν := ν) edge)))), self)
    else
      (.ok edge,
        ⟨{ self.generic_diagram with edges := self.generic_diagram.edges ++ [edge] }⟩)

/-- Rust `GenericDiagramBuilder::node`: assigns the current node count as the id
when the builder's id is unset, builds the node (propagating node-builder
errors), then requires every declared style class to be registered (matched
by name); only then is the node appended. The method takes `&mut self`; the
updated builder is returned next to the result and is unchanged on
failure. -/
def GenericDiagramBuilder.node [MNode ν] [MNodeBuilder β ν]
    (self : GenericDiagramBuilder ν ε γ) (node : β) :
    Except Error ν × GenericDiagramBuilder ν ε γ :=
  let number_of_nodes := self.generic_diagram.nodes.length
  let node :=
    if (MNodeBuilder.get_id (ν := ν) node).isNone then
      MNodeBuilder.set_id (ν := ν) node number_of_nodes
    else node
  match MNodeBuilder.build (ν := ν) node with
  | .error e => (.error (.Node e), self)
  | .ok node =>
    match (MNode.classes node).find? (fun class_ =>
        !(self.generic_diagram.style_classes.any (fun sc => sc.name == class_.name))) with
    | some class_ => (.error (.StyleClass (.UnknownClass class_)), self)
    | none =>
      (.ok node,
        ⟨{ self.generic_diagram with nodes := self.generic_diagram.nodes ++ [node] }⟩)

/-- Rust `GenericDiagramBuilder::style_class`: builds the style class
(propagating its errors), rejects a name already present in the collection,
otherwise appends. The method takes `&mut self`; the updated builder is
returned next to the result and is unchanged on failure. -/
def GenericDiagramBuilder.style_class (self : GenericDiagramBuilder ν ε γ)
    (style_class : StyleClassBuilder) :
    Except Error StyleClass × GenericDiagramBuilder ν ε γ :=
  match style_class.build with
  | .error e => (.error (.StyleClass e), self)
  | .ok style_class =>
    if self.generic_diagram.style_classes.any (fun sc => sc.name == style_class.name) then
      (.error (.StyleClass (.DuplicateClass style_class.name)), self)
    else
      (.ok style_class,
        ⟨{ self.generic_diagram with
            style_classes := self.generic_diagram.style_classes ++ [style_class] }⟩)

/-- Rust `Flowchart` (`src/diagrams/flowchart.rs`): a generic diagram over the
flowchart node, edge and configuration types. -/
structure Flowchart where
  generic : GenericDiagram FlowchartNode FlowchartEdge FlowchartConfiguration
  deriving DecidableEq

/-- Rust `<Flowchart as Diagram>::nodes`. -/
def Flowchart.nodes (self : Flowchart) : List FlowchartNode := self.generic.nodes

/-- Rust `<Flowchart as Diagram>::edges`. -/
def Flowchart.edges (self : Flowchart) : List FlowchartEdge := self.generic.edges

/-- Rust `<Flowchart as Diagram>::style_classes`. -/
def Flowchart.style_classes (self : Flowchart) : List StyleClass :=
  self.generic.style_classes

/-- Rust `<Flowchart as Diagram>::configuration`. -/
def Flowchart.configuration (self : Flowchart) : FlowchartConfiguration :=
  self.generic.configuration

/-- Rust `FlowchartBuilder` (`src/diagrams/flowchart/builder.rs`). -/
structure FlowchartBuilder where
  generic : GenericDiagramBuilder FlowchartNode FlowchartEdge FlowchartConfiguration
  deriving DecidableEq

instance : Inhabited FlowchartBuilder := ⟨⟨default⟩⟩

/-- Rust `From<FlowchartBuilder> for Flowchart`: a plain move of the accumulated
state, with no further validation. -/
def Flowchart.fromBuilder (builder : FlowchartBuilder) : Flowchart :=
  ⟨builder.generic.generic_diagram⟩

/-- Rust `FlowchartBuilder::number_of_edges`. -/
def FlowchartBuilder.number_of_edges (self : FlowchartBuilder) : Nat :=
  self.generic.number_of_edges

/-- Rust `FlowchartBuilder::number_of_nodes`. -/
def FlowchartBuilder.number_of_nodes (self : FlowchartBuilder) : Nat :=
  self.generic.number_of_nodes

/-- Rust `FlowchartBuilder::node`: delegates to the generic builder. -/
def FlowchartBuilder.node (self : FlowchartBuilder) (node : FlowchartNodeBuilder) :
    Except Error FlowchartNode × FlowchartBuilder :=
  let (result, generic) := self.generic.node node
  (result, ⟨generic⟩)

/-- Rust `FlowchartBuilder::edge`: unconditionally overwrites the edge builder's
id with the current `number_of_edges()`, then delegates to the generic
builder. -/
def FlowchartBuilder.edge (self : FlowchartBuilder) (edge : FlowchartEdgeBuilder) :
    Except Error FlowchartEdge × FlowchartBuilder :=
  let edge := edge.id_ self.number_of_edges
  let (result, generic) := self.generic.edge edge
  (result, ⟨generic⟩)

/-- Rust `FlowchartBuilder::style_class`: delegates to the generic builder. -/
def FlowchartBuilder.style_class (self : FlowchartBuilder)
    (style_class : StyleClassBuilder) : Except Error StyleClass × FlowchartBuilder :=
  let (result, generic) := self.generic.style_class style_class
  (result, ⟨generic⟩)

/-- Rust `FlowchartBuilder::configuration`: delegates to the generic builder. -/
def FlowchartBuilder.configuration (self : FlowchartBuilder)
    (configuration : FlowchartConfigurationBuilder) : Except Error FlowchartBuilder :=
  match self.generic.configuration configuration with
  | .error e => .error e
  | .ok generic => .ok ⟨generic⟩

/-- The subgraph-exclusion list of the flowchart renderer: scan the nodes in
insertion order, skip a node that is already in the list, and append the
subnode list of every other node. -/
def flowchartSubgraphNodes (nodes : List FlowchartNode) : List FlowchartNode :=
  nodes.foldl (fun subgraph_nodes node =>
    if subgraph_nodes.contains node then subgraph_nodes
    else subgraph_nodes ++ node.subnodes) []

/-- The top-level node section of the flowchart renderer: nodes in insertion
order, skipping members of the (sorted) subgraph-exclusion list. -/
def flowchartNodesSection (tab_count : Nat) (subgraph_nodes : List FlowchartNode)
    (nodes : List FlowchartNode) : String :=
  nodes.foldl (fun acc node =>
    if subgraph_nodes.contains node then acc
    else acc ++ FlowchartNode.fmtTabbed (tab_count + 1) node) ""

/-- Rust `<Flowchart as TabbedDisplay>::fmt_tabbed`: configuration header,
`flowchart <direction>` line, `classDef` lines filtered to classes
referenced by at least one node or edge, top-level nodes with
subgraph-owned nodes excluded, then the edges. -/
def Flowchart.fmtTabbed (tab_count : Nat) (self : Flowchart) : String :=
  let indent := indentOf tab_count
  self.configuration.fmt ++
  (indent ++ "flowchart " ++ self.configuration.direction.fmt ++ "\n") ++
  self.style_classes.foldl (fun acc style_class =>
    if !(self.nodes.any (fun n => n.classes.any (fun sc => sc == style_class))) ∧
        !(self.edges.any (fun e => e.classes.any (fun sc => sc == style_class))) then
      acc
    else
      acc ++ StyleClass.fmtTabbed (tab_count + 1) style_class) "" ++
  (let subgraph_nodes := sortUnstable FlowchartNode.le (flowchartSubgraphNodes self.nodes)
   flowchartNodesSection tab_count subgraph_nodes self.nodes) ++
  self.edges.foldl (fun acc edge => acc ++ FlowchartEdge.fmtTabbed (tab_count + 1) edge) ""

/-- Rust `<Flowchart as Display>::fmt`: tabbed rendering at depth 0. -/
def Flowchart.fmt (self : Flowchart) : String := Flowchart.fmtTabbed 0 self

/-- Whether `pat` is an initial segment of `s`. -/
def leadsWith : List Char → List Char → Bool
  | [], _ => true
  | _ :: _, [] => false
  | p :: ps, c :: cs => p == c && leadsWith ps cs

/-- The number of (possibly overlapping) occurrences of `pat` in `s`. -/
def countOccAux (pat : List Char) : List Char → Nat
  | [] => 0
  | c :: rest => (if leadsWith pat (c :: rest) then 1 else 0) + countOccAux pat rest

/-- The number of occurrences of the pattern `pat` in the string `s`. -/
def substrCount (pat s : String) : Nat := countOccAux pat.data s.data

/-- The flowchart instantiation of the generic diagram builder, the apex
object every claim about builder traces ranges over. -/
abbrev FCDiagramBuilder :=
  GenericDiagramBuilder FlowchartNode FlowchartEdge FlowchartConfiguration

/-- One generic-diagram-builder operation (at the flowchart instantiation):
`style_class`, `node`, `edge` or `configuration`. -/
inductive FlowchartOp where
  | style_class (style_class : StyleClassBuilder)
  | node (node : FlowchartNodeBuilder)
  | edge (edge : FlowchartEdgeBuilder)
  | configuration (configuration : FlowchartConfigurationBuilder)

/-- Whether an operation is a node registration. -/
def FlowchartOp.isNodeOp : FlowchartOp → Bool
  | .node _ => true
  | _ => false

/-- Performing one builder operation: the operation's result value is
discarded and its error, if any, is surfaced. -/
def FlowchartOp.step (b : FCDiagramBuilder) : FlowchartOp → Except Error FCDiagramBuilder
  | .style_class scb =>
    match b.style_class scb with
    | (.error e, _) => .error e
    | (.ok _, b') => .ok b'
  | .node nb =>
    match b.node nb with
    | (.error e, _) => .error e
    | (.ok _, b') => .ok b'
  | .edge eb =>
    match b.edge eb with
    | (.error e, _) => .error e
    | (.ok _, b') => .ok b'
  | .configuration cb => b.configuration cb

/-- Running a sequence of builder operations, short-circuiting at the first
failure: `runOps b ops = .ok b'` says exactly that every operation in `ops`
succeeded and `b'` is the resulting builder. -/
def runOps (b : FCDiagramBuilder) : List FlowchartOp → Except Error FCDiagramBuilder
  | [] => .ok b
  | op :: ops =>
    match FlowchartOp.step b op with
    | .error e => .error e
    | .ok b' => runOps b' ops

/-- A flowchart node builder with the given (optional) id and label and no
other attributes. -/
def mkNodeBuilder (id : Option Nat) (label : String) : FlowchartNodeBuilder :=
  ⟨⟨id, some label, [], []⟩, none, default, [], none⟩

/-- Fixture: a bare flowchart node with id 0 and label `"A"`. -/
def fxA : FlowchartNode := .mk ⟨0, "A", [], []⟩ none default [] none

/-- Fixture: a bare flowchart node with id 1 and label `"B"`. -/
def fxB : FlowchartNode := .mk ⟨1, "B", [], []⟩ none default [] none

/-- C3 counterexample run: register a leaf node `X` (id 2), then two
subgraph nodes `A` (id 0) and `B` (id 1) that both list `X` as a subnode,
and finalize the flowchart. -/
def c3Run : Except Error Flowchart := do
  let b0 := (default : FlowchartBuilder)
  let (r1, b1) := b0.node (mkNodeBuilder (some 2) "X")
  let x ← r1
  let (r2, b2) := b1.node { mkNodeBuilder (some 0) "A" with subnodes := [x] }
  let _ ← r2
  let (r3, b3) := b2.node { mkNodeBuilder (some 1) "B" with subnodes := [x] }
  let _ ← r3
  return Flowchart.fromBuilder b3

/-- C7 scenario configuration: title `"My Flowchart"`, renderer
`EclipseLayoutKernel`, theme `Forest`, look `HandDrawn`, built through the
flowchart configuration builder. -/
def c7Config : Except ConfigError FlowchartConfiguration := do
  let b := (default : FlowchartConfigurationBuilder)
  let b ← b.title_ "My Flowchart"
  let b := b.renderer_ .EclipseLayoutKernel
  let b := b.theme_ .Forest
  let b := b.look_ .HandDrawn
  b.build

/-- C8 witness fixture: class node with id 0. -/
def c8NodeA : ClassNode := ⟨⟨0, "A", [], []⟩, none, none, [], []⟩

/-- C8 witness fixture: class node with id 1. -/
def c8NodeB : ClassNode := ⟨⟨1, "B", [], []⟩, none, none, [], []⟩

/-- C4 witness fixture: a diagram builder with only `fxA` registered. -/
def c4Builder : FCDiagramBuilder := ⟨⟨[], [fxA], [], default⟩⟩

/-- C4 witness fixture: an edge builder from `fxA` to the unregistered
`fxB`, with an explicit id so that it builds successfully. -/
def c4Eb : FlowchartEdgeBuilder := ⟨some 1, ⟨none, some fxA, some fxB, default, none, none⟩,
  [], [], default, 1⟩

/-- C4 witness fixture: the edge `c4Eb` builds into. -/
def c4Edge : FlowchartEdge := ⟨1, ⟨none, fxA, fxB, .Solid, none, none⟩, [], [], .Basis, 1⟩

/-- C5 witness fixture: a style class that is never registered on the
diagram. -/
def fxClass : StyleClass := ⟨"unknown", [.StrokeWidth (.Pixel 2)]⟩

/-- C5 witness fixture: a node builder declaring the unregistered class. -/
def c5Nb : FlowchartNodeBuilder := ⟨⟨some 1, some "N", [fxClass], []⟩, none, default, [], none⟩

/-- C5 witness fixture: the node `c5Nb` builds into. -/
def c5Node : FlowchartNode := .mk ⟨1, "N", [fxClass], []⟩ none default [] none

/-- C9 witness fixture: a flowchart builder with `fxA` and `fxB` registered
and no edges. -/
def c9Builder : FlowchartBuilder := ⟨⟨⟨[], [fxA, fxB], [], default⟩⟩⟩

/-- C9 witness fixture: an edge builder carrying a caller-set id 99, which
the flowchart builder must ignore. -/
def c9Eb : FlowchartEdgeBuilder := ⟨some 99, ⟨none, some fxA, some fxB, default, none, none⟩,
  [], [], default, 1⟩

/-- C9 witness fixture: the edge actually stored, with the overwritten
id 0. -/
def c9Edge : FlowchartEdge := ⟨0, ⟨none, fxA, fxB, .Solid, none, none⟩, [], [], .Basis, 1⟩

/-- C9 witness fixture: the builder after appending `c9Edge`. -/
def c9After : FlowchartBuilder := ⟨⟨⟨[], [fxA, fxB], [c9Edge], default⟩⟩⟩

/-- Decidable equality of `Except` results, used to evaluate concrete
builder runs inside proofs. -/
instance {ε α : Type} [DecidableEq ε] [DecidableEq α] : DecidableEq (Except ε α)
  | .ok a, .ok b => decidable_of_iff (a = b) (by simp)
  | .ok _, .error _ => isFalse (by simp)
  | .error _, .ok _ => isFalse (by simp)
  | .error e, .error f => decidable_of_iff (e = f) (by simp)

/-- C1 counterexample operation sequence: two node registrations that both
carry the explicit id 0. -/
def c1Ops : List FlowchartOp :=
  [.node (mkNodeBuilder (some 0) "A"), .node (mkNodeBuilder (some 0) "B")]

/-- C1 witness operation sequence: a style class registration followed by
two node registrations with unset ids. -/
def c1WitnessOps : List FlowchartOp :=
  [.style_class ⟨some "c", [.Opacity 50]⟩,
   .node (mkNodeBuilder none "A"), .node (mkNodeBuilder none "B")]

/-- The builder reached by `c1WitnessOps`. -/
def c1WitnessResult : FCDiagramBuilder :=
  ⟨⟨[⟨"c", [.Opacity 50]⟩],
    [.mk ⟨0, "A", [], []⟩ none default [] none,
     .mk ⟨1, "B", [], []⟩ none default [] none], [], default⟩⟩

/-- C6 witness builders: two unset-id node builders. -/
def c6Builders : List FlowchartNodeBuilder :=
  [mkNodeBuilder none "A", mkNodeBuilder none "B"]

/-- The builder reached by inserting `c6Builders` into the empty builder. -/
def c6Result : FCDiagramBuilder :=
  ⟨⟨[], [.mk ⟨0, "A", [], []⟩ none default [] none,
         .mk ⟨1, "B", [], []⟩ none default [] none], [], default⟩⟩

/-- A string with a nonempty left part is nonempty. -/
theorem append_ne_empty (s t : String) (h : s.data ≠ []) : s ++ t ≠ "" := by
  intro he
  apply h
  have hd := congrArg String.data he
  rw [String.data_append] at hd
  exact (List.append_eq_nil.mp hd).1

/-- Rust `List.contains` agrees with membership (for a lawful `BEq`). -/
theorem contains_iff {α : Type} [BEq α] [LawfulBEq α] (l : List α) (a : α) :
    l.contains a = true ↔ a ∈ l :=
  List.elem_iff

/-- Membership is preserved by sorted insertion. -/
theorem mem_insertSorted {α : Type} (le : α → α → Bool) (a b : α) :
    ∀ l : List α, b ∈ insertSorted le a l ↔ b = a ∨ b ∈ l
  | [] => by simp [insertSorted]
  | c :: cs => by
    by_cases h : le a c
    · simp [insertSorted, h]
    · simp only [insertSorted, if_neg h, List.mem_cons, mem_insertSorted le a b cs]
      tauto

/-- Membership is preserved by sorting. -/
theorem mem_sortUnstable {α : Type} (le : α → α → Bool) (b : α) :
    ∀ l : List α, b ∈ sortUnstable le l ↔ b ∈ l
  | [] => Iff.rfl
  | a :: as => by
    simp only [sortUnstable, mem_insertSorted, mem_sortUnstable le b as, List.mem_cons]

/-- Sorting the exclusion list does not change membership. -/
theorem contains_sortUnstable (l : List FlowchartNode) (a : FlowchartNode) :
    ((sortUnstable FlowchartNode.le l).contains a) = l.contains a := by
  by_cases h : a ∈ l
  · rw [(contains_iff _ a).mpr ((mem_sortUnstable _ a l).mpr h), (contains_iff _ a).mpr h]
  · have h1 : ¬ a ∈ sortUnstable FlowchartNode.le l :=
      fun hm => h ((mem_sortUnstable _ a l).mp hm)
    rw [Bool.eq_iff_iff]
    constructor
    · intro hc; exact absurd ((contains_iff _ a).mp hc) h1
    · intro hc; exact absurd ((contains_iff _ a).mp hc) h

/-- Rust `String.join` distributes over `cons`. -/
theorem string_join_cons (s : String) (l : List String) :
    String.join (s :: l) = s ++ String.join l := by
  have haux : ∀ (l : List String) (acc : String),
      l.foldl (fun r s => r ++ s) acc = acc ++ l.foldl (fun r s => r ++ s) "" := by
    intro l
    induction l with
    | nil => intro acc; simp
    | cons x xs ih =>
      intro acc
      simp only [List.foldl_cons]
      rw [ih (acc ++ x), ih ("" ++ x)]
      simp [String.append_assoc]
  simp only [String.join, List.foldl_cons]
  rw [haux l ("" ++ s)]
  simp

/-- A fold that skips elements satisfying `p` and appends the rendering of
the others equals the join of the renderings of the filtered list. -/
theorem foldl_skip {α : Type} (p : α → Bool) (f : α → String) :
    ∀ (l : List α) (acc : String),
      l.foldl (fun acc x => if p x then acc else acc ++ f x) acc
        = acc ++ String.join ((l.filter (fun x => !p x)).map f)
  | [], acc => by simp [String.join]
  | x :: l, acc => by
    by_cases h : p x
    · rw [List.foldl_cons, if_pos h, List.filter_cons_of_neg (by simp [h]),
        foldl_skip p f l acc]
    · rw [List.foldl_cons, if_neg h, List.filter_cons_of_pos (by simp [h]),
        List.map_cons, string_join_cons, foldl_skip p f l (acc ++ f x),
        String.append_assoc]

/-- A flowchart node built after `id(k)` carries id `k`. -/
theorem build_id_of_set (nb : FlowchartNodeBuilder) (k : Nat) (n : FlowchartNode)
    (h : (nb.id_ k).build = .ok n) : n.id = k := by
  unfold FlowchartNodeBuilder.build at h
  split at h
  · simp at h
  · revert h
    simp only [FlowchartNodeBuilder.id_, GenericNodeBuilder.id_, GenericNodeBuilder.build]
    cases hl : nb.builder.label with
    | none => intro h; simp at h
    | some l =>
      intro h
      cases h
      rfl

/-- One successful generic-builder operation either leaves the node list
unchanged (style class, edge, configuration) or appends exactly one node
whose id is the previous node count (node operation with an unset-id
builder). -/
theorem step_nodes (b b' : FCDiagramBuilder) (op : FlowchartOp)
    (hid : ∀ nb, op = .node nb → nb.get_id = none)
    (h : FlowchartOp.step b op = .ok b') :
    (b'.generic_diagram.nodes = b.generic_diagram.nodes ∧ op.isNodeOp = false) ∨
    (∃ n, b'.generic_diagram.nodes = b.generic_diagram.nodes ++ [n] ∧
      n.id = b.number_of_nodes ∧ op.isNodeOp = true) := by
  cases op with
  | style_class scb =>
    left
    refine ⟨?_, rfl⟩
    simp only [FlowchartOp.step, GenericDiagramBuilder.style_class] at h
    cases hb : scb.build with
    | error e => simp only [hb] at h; exact Except.noConfusion h
    | ok sc =>
      simp only [hb] at h
      cases hdup : b.generic_diagram.style_classes.any (fun sc2 => sc2.name == sc.name) with
      | true => simp [hdup] at h
      | false =>
        simp only [hdup, Bool.false_eq_true, if_false, Except.ok.injEq] at h
        cases h
        rfl
  | node nb =>
    right
    have hnone := hid nb rfl
    simp only [FlowchartOp.step, GenericDiagramBuilder.node] at h
    rw [show MNodeBuilder.get_id (ν := FlowchartNode) nb = nb.get_id from rfl, hnone] at h
    simp only [Option.isNone_none, if_true] at h
    rw [show MNodeBuilder.set_id (ν := FlowchartNode) nb b.generic_diagram.nodes.length
        = nb.id_ b.generic_diagram.nodes.length from rfl] at h
    have hbld : MNodeBuilder.build (ν := FlowchartNode) (nb.id_ b.generic_diagram.nodes.length)
        = (nb.id_ b.generic_diagram.nodes.length).build := rfl
    cases hb : (nb.id_ b.generic_diagram.nodes.length).build with
    | error e => rw [hbld] at h; simp only [hb] at h; exact Except.noConfusion h
    | ok n =>
      rw [hbld] at h
      simp only [hb] at h
      refine ⟨n, ?_⟩
      cases hf : (MNode.classes n).find? (fun class_ =>
          !(b.generic_diagram.style_classes.any (fun sc => sc.name == class_.name))) with
      | some c => simp only [hf] at h; exact Except.noConfusion h
      | none =>
        simp only [hf, Except.ok.injEq] at h
        cases h
        exact ⟨rfl, build_id_of_set nb _ n hb, rfl⟩
  | edge eb =>
    left
    refine ⟨?_, rfl⟩
    simp only [FlowchartOp.step, GenericDiagramBuilder.edge] at h
    cases hb : MEdgeBuilder.build (ε := FlowchartEdge) eb with
    | error e => simp only [hb] at h; exact Except.noConfusion h
    | ok e =>
      simp only [hb] at h
      by_cases hsrc : MEdge.source (ν := FlowchartNode) e ∈ b.generic_diagram.nodes
      · by_cases hdst : MEdge.destination (ν := FlowchartNode) e ∈ b.generic_diagram.nodes
        · simp [hsrc, hdst] at h
          subst h
          rfl
        · simp [hsrc, hdst] at h
      · simp [hsrc] at h
  | configuration cb =>
    left
    refine ⟨?_, rfl⟩
    simp only [FlowchartOp.step, GenericDiagramBuilder.configuration] at h
    cases hb : MConfigurationBuilder.build (γ := FlowchartConfiguration) cb with
    | error e => simp only [hb] at h; exact Except.noConfusion h
    | ok config =>
      simp only [hb, Except.ok.injEq] at h
      cases h
      rfl

/-- Invariant of successful operation sequences whose node builders all have
unset ids: the node ids read `0, 1, 2, ...` in insertion order, and each node
operation grows the node list by exactly one. -/
theorem runOps_nodes (ops : List FlowchartOp)
    (hunset : ∀ nb, FlowchartOp.node nb ∈ ops → nb.get_id = none) :
    ∀ b0 b, runOps b0 ops = .ok b →
      b0.generic_diagram.nodes.map FlowchartNode.id
        = List.range b0.generic_diagram.nodes.length →
      b.generic_diagram.nodes.map FlowchartNode.id
          = List.range b.generic_diagram.nodes.length ∧
        b.generic_diagram.nodes.length
          = b0.generic_diagram.nodes.length + (ops.filter FlowchartOp.isNodeOp).length := by
  induction ops with
  | nil =>
    intro b0 b h hinv
    simp only [runOps, Except.ok.injEq] at h
    subst h
    exact ⟨hinv, by simp⟩
  | cons op ops ih =>
    intro b0 b h hinv
    simp only [runOps] at h
    cases hs : FlowchartOp.step b0 op with
    | error e => rw [hs] at h; exact Except.noConfusion h
    | ok b1 =>
      rw [hs] at h
      have hops : ∀ nb, FlowchartOp.node nb ∈ ops → nb.get_id = none :=
        fun nb hm => hunset nb (List.mem_cons_of_mem _ hm)
      have hstep := step_nodes b0 b1 op
        (fun nb hop => hunset nb (by rw [hop]; exact List.mem_cons_self _ _)) hs
      cases hstep with
      | inl hl =>
        obtain ⟨hnodes, hnop⟩ := hl
        have hinv1 : b1.generic_diagram.nodes.map FlowchartNode.id
            = List.range b1.generic_diagram.nodes.length := by
          rw [hnodes]; exact hinv
        obtain ⟨ha, hlen⟩ := ih hops b1 b h hinv1
        refine ⟨ha, ?_⟩
        rw [hlen, hnodes, List.filter_cons, hnop]
        simp
      | inr hr =>
        obtain ⟨n, hnodes, hid, hnop⟩ := hr
        have hid' : n.id = b0.generic_diagram.nodes.length := hid
        have hinv1 : b1.generic_diagram.nodes.map FlowchartNode.id
            = List.range b1.generic_diagram.nodes.length := by
          rw [hnodes, List.map_append, hinv, List.length_append]
          simp [hid', List.range_succ]
        obtain ⟨ha, hlen⟩ := ih hops b1 b h hinv1
        refine ⟨ha, ?_⟩
        rw [hlen, hnodes, List.filter_cons, hnop]
        simp [List.length_append]
        omega

/-- Claim C2, counterexample: `StyleClassBuilder::property` accepts a second
property of the same kind (variant) as an existing one when the payloads
differ — `Fill` red followed by `Fill` blue succeeds — whereas the claim
says this must fail with `DuplicateProperty`. -/
theorem C2_counterexample :
    StyleProperty.is_same_type (.Fill ⟨255, 0, 0⟩) (.Fill ⟨0, 0, 255⟩) = true ∧
    StyleClassBuilder.property ⟨none, [.Fill ⟨255, 0, 0⟩]⟩ (.Fill ⟨0, 0, 255⟩)
      = .ok ⟨none, [.Fill ⟨255, 0, 0⟩, .Fill ⟨0, 0, 255⟩]⟩ := by
  exact ⟨rfl, by decide⟩

/-- Claim C2 (amended): `StyleClassBuilder::property(p)` fails with
`DuplicateProperty(p)` exactly when a property equal to `p` (same variant
and same payload, `self.properties.contains(&property)`) was already added;
otherwise it appends `p`, preserving the insertion order of the earlier
properties; a failing call produces no updated builder. -/
theorem C2_theorem (b : StyleClassBuilder) (p : StyleProperty) :
    (b.property p = .error (.DuplicateProperty p) ↔ p ∈ b.properties) ∧
    (p ∉ b.properties → b.property p = .ok ⟨b.name, b.properties ++ [p]⟩) := by
  refine ⟨⟨?_, ?_⟩, ?_⟩
  · intro h
    by_contra hmem
    have hc : b.properties.contains p = false :=
      Bool.eq_false_iff.mpr (fun hh => hmem ((contains_iff _ _).mp hh))
    unfold StyleClassBuilder.property at h
    rw [hc] at h
    simp at h
  · intro hmem
    have hc : b.properties.contains p = true := (contains_iff _ _).mpr hmem
    unfold StyleClassBuilder.property
    rw [hc]
    simp
  · intro hmem
    have hc : b.properties.contains p = false :=
      Bool.eq_false_iff.mpr (fun hh => hmem ((contains_iff _ _).mp hh))
    unfold StyleClassBuilder.property
    rw [hc]
    simp

/-- Claim C2, witness: adding a `Stroke` property to a builder holding only
a `Fill` property succeeds and appends it. -/
theorem C2_witness :
    StyleClassBuilder.property ⟨none, [.Fill ⟨255, 0, 0⟩]⟩ (.Stroke ⟨0, 0, 0⟩)
      = .ok ⟨none, [.Fill ⟨255, 0, 0⟩, .Stroke ⟨0, 0, 0⟩]⟩ :=
  (C2_theorem ⟨none, [.Fill ⟨255, 0, 0⟩]⟩ (.Stroke ⟨0, 0, 0⟩)).2 (by decide)

/-- Claim C7: the flowchart configuration renders to the empty string
exactly when the title is unset and the renderer is the default (`Dagre`);
and for the scenario configuration (renderer `EclipseLayoutKernel`, theme
`Forest`, look `HandDrawn`, title `"My Flowchart"`) the front-matter
contains `defaultRenderer: "elk"`, `theme: forest`, `look: handDrawn` and
`title: My Flowchart`. -/
theorem C7_theorem :
    (default : Renderer) = Renderer.Dagre ∧
    (∀ c : FlowchartConfiguration,
      c.fmt = "" ↔ (c.generic.title = none ∧ c.renderer = default)) ∧
    c7Config.map (fun c =>
        (substrCount "defaultRenderer: \"elk\"" c.fmt != 0) &&
        (substrCount "theme: forest" c.fmt != 0) &&
        (substrCount "look: handDrawn" c.fmt != 0) &&
        (substrCount "title: My Flowchart" c.fmt != 0)) = .ok true := by
  refine ⟨rfl, ?_, by decide⟩
  intro c
  constructor
  · intro he
    by_contra hc
    rw [FlowchartConfiguration.fmt, if_neg hc] at he
    exact append_ne_empty _ _ (by decide) he
  · intro hc
    rw [FlowchartConfiguration.fmt, if_pos hc]

/-- Claim C8: a class-diagram edge from a node with id 0 to a node with
id 1, with `Dashed` line style, right arrow `Triangle`, no left arrow, no
multiplicities and label `"uses"`, renders at depth 0 exactly as
`v0 ..|> v1 : "\`uses\`"` followed by a newline. -/
theorem C8_theorem (src dst : ClassNode) (hs : src.id = 0) (hd : dst.id = 1) :
    ClassEdge.fmtTabbed 0 ⟨⟨some "uses", src, dst, .Dashed, none, some .Triangle⟩, none, none⟩
      = "v0 ..|> v1 : \"`uses`\"\n" := by
  simp only [ClassEdge.fmtTabbed, ClassEdge.source, ClassEdge.destination,
    ClassEdge.label, ClassEdge.line_style, hs, hd]
  decide

/-- Claim C8, witness: the concrete nodes `c8NodeA` (id 0) and `c8NodeB`
(id 1). -/
theorem C8_witness :
    ClassEdge.fmtTabbed 0
        ⟨⟨some "uses", c8NodeA, c8NodeB, .Dashed, none, some .Triangle⟩, none, none⟩
      = "v0 ..|> v1 : \"`uses`\"\n" :=
  C8_theorem c8NodeA c8NodeB rfl rfl

/-- Claim C10: rendering a finalized flowchart is deterministic — the
renderer is a pure function of the diagram value, so two invocations on the
same value produce byte-identical text. -/
theorem C10_theorem (fc : Flowchart) : fc.fmt = fc.fmt := rfl

/-- Claim C1, counterexample: two node operations with the explicit id 0
both succeed, so the builder reached by this successful operation sequence
holds two registered nodes with the same id — the ids of registered nodes
are not pairwise distinct. -/
theorem C1_counterexample :
    (runOps default c1Ops).map
        (fun b => b.generic_diagram.nodes.map FlowchartNode.id) = .ok [0, 0] ∧
    ¬ ([0, 0] : List Nat).Nodup := ⟨by decide, by decide⟩

/-- Claim C1 (amended): for every builder reachable from the empty builder
by a sequence of successful `style_class`/`node`/`edge`/`configuration`
operations in which every node builder's id is unset, the node operation
assigns the current node count as the id, the registered ids read
`0, 1, ..., n-1` in insertion order, and hence are pairwise distinct.
(With explicitly set ids the builder accepts duplicates — see the
counterexample.) -/
theorem C1_theorem (ops : List FlowchartOp)
    (hunset : ∀ nb, FlowchartOp.node nb ∈ ops → nb.get_id = none)
    (b : FCDiagramBuilder) (hrun : runOps default ops = .ok b) :
    b.generic_diagram.nodes.map FlowchartNode.id
        = List.range b.generic_diagram.nodes.length ∧
      (b.generic_diagram.nodes.map FlowchartNode.id).Nodup := by
  have h := runOps_nodes ops hunset default b hrun (by decide)
  exact ⟨h.1, h.1 ▸ List.nodup_range _⟩

/-- Claim C1, witness: a style-class registration followed by two unset-id
node registrations. -/
theorem C1_witness :
    runOps default c1WitnessOps = .ok c1WitnessResult ∧
    (c1WitnessResult.generic_diagram.nodes.map FlowchartNode.id
        = List.range c1WitnessResult.generic_diagram.nodes.length ∧
      (c1WitnessResult.generic_diagram.nodes.map FlowchartNode.id).Nodup) := by
  have hrun : runOps default c1WitnessOps = .ok c1WitnessResult := by decide
  refine ⟨hrun, C1_theorem c1WitnessOps ?_ c1WitnessResult hrun⟩
  intro nb hm
  simp only [c1WitnessOps, List.mem_cons, List.not_mem_nil, or_false] at hm
  rcases hm with h | h | h
  · exact FlowchartOp.noConfusion h
  · injection h with h; subst h; rfl
  · injection h with h; subst h; rfl

/-- The filtered length of a pure node-operation sequence is its length. -/
theorem filter_map_node (bs : List FlowchartNodeBuilder) :
    ((bs.map FlowchartOp.node).filter FlowchartOp.isNodeOp).length = bs.length := by
  induction bs with
  | nil => rfl
  | cons x xs ih => simp [List.filter_cons, FlowchartOp.isNodeOp, ih]

/-- Claim C6: inserting `N` nodes whose builders all have unset ids into the
empty builder (each insertion succeeding) yields nodes whose ids are
`0 .. N-1` in insertion order, regardless of label content. -/
theorem C6_theorem (bs : List FlowchartNodeBuilder)
    (hunset : ∀ nb ∈ bs, nb.get_id = none)
    (b : FCDiagramBuilder)
    (hrun : runOps default (bs.map FlowchartOp.node) = .ok b) :
    b.generic_diagram.nodes.map FlowchartNode.id = List.range bs.length := by
  have hun : ∀ nb, FlowchartOp.node nb ∈ bs.map FlowchartOp.node → nb.get_id = none := by
    intro nb hm
    obtain ⟨x, hx, heq⟩ := List.mem_map.mp hm
    injection heq with heq
    subst heq
    exact hunset x hx
  have h := runOps_nodes _ hun default b hrun (by decide)
  rw [h.1, h.2, filter_map_node]
  have h0 : (default : FCDiagramBuilder).generic_diagram.nodes.length = 0 := rfl
  rw [h0, Nat.zero_add]

/-- Claim C6, witness: two unset-id node builders with labels `"A"` and
`"B"` yield ids 0 and 1. -/
theorem C6_witness :
    c6Result.generic_diagram.nodes.map FlowchartNode.id = List.range c6Builders.length :=
  C6_theorem c6Builders (by decide) c6Result (by decide)

/-- Claim C4: when the edge builder itself builds successfully, the edge
operation fails with `SourceNodeNotFound(source label)` when the source is
not a member of the node collection, else with
`DestinationNodeNotFound(destination label)` when the destination is
absent; in either failure case the builder (and so `number_of_edges()`) is
unchanged, and only when both endpoints are present is the edge appended. -/
theorem C4_theorem {ν ε γ δ : Type} [DecidableEq ν] [MNode ν] [MEdge ε ν] [MEdgeBuilder δ ε]
    (self : GenericDiagramBuilder ν ε γ) (eb : δ) (e : ε)
    (hbuild : MEdgeBuilder.build (ε := ε) eb = .ok e) :
    ((MEdge.source (ν := ν) e) ∉ self.generic_diagram.nodes →
      self.edge eb = (.error (.Edge (.SourceNodeNotFound
        (MNode.label (MEdge.source (ν := ν) e)))), self)) ∧
    ((MEdge.source (ν := ν) e) ∈ self.generic_diagram.nodes →
      (MEdge.destination (ν := ν) e) ∉ self.generic_diagram.nodes →
      self.edge eb = (.error (.Edge (.DestinationNodeNotFound
        (MNode.label (MEdge.destination (ν := ν) e)))), self)) ∧
    ((MEdge.source (ν := ν) e) ∈ self.generic_diagram.nodes →
      (MEdge.destination (ν := ν) e) ∈ self.generic_diagram.nodes →
      self.edge eb = (.ok e, ⟨{ self.generic_diagram with
        edges := self.generic_diagram.edges ++ [e] }⟩)) ∧
    (∀ err b', self.edge eb = (.error err, b') →
      b'.number_of_edges = self.number_of_edges) := by
  have h1 : (MEdge.source (ν := ν) e) ∉ self.generic_diagram.nodes →
      self.edge eb = (.error (.Edge (.SourceNodeNotFound
        (MNode.label (MEdge.source (ν := ν) e)))), self) := by
    intro hsrc
    have hc : (self.generic_diagram.nodes.contains (MEdge.source (ν := ν) e)) = false :=
      Bool.eq_false_iff.mpr (fun hh => hsrc ((contains_iff _ _).mp hh))
    simp only [GenericDiagramBuilder.edge, hbuild, hc]
    simp
  have h2 : (MEdge.source (ν := ν) e) ∈ self.generic_diagram.nodes →
      (MEdge.destination (ν := ν) e) ∉ self.generic_diagram.nodes →
      self.edge eb = (.error (.Edge (.DestinationNodeNotFound
        (MNode.label (MEdge.destination (ν := ν) e)))), self) := by
    intro hsrc hdst
    have hcs : (self.generic_diagram.nodes.contains (MEdge.source (ν := ν) e)) = true :=
      (contains_iff _ _).mpr hsrc
    have hcd : (self.generic_diagram.nodes.contains (MEdge.destination (ν := ν) e)) = false :=
      Bool.eq_false_iff.mpr (fun hh => hdst ((contains_iff _ _).mp hh))
    simp only [GenericDiagramBuilder.edge, hbuild, hcs, hcd]
    simp
  have h3 : (MEdge.source (ν := ν) e) ∈ self.generic_diagram.nodes →
      (MEdge.destination (ν := ν) e) ∈ self.generic_diagram.nodes →
      self.edge eb = (.ok e, ⟨{ self.generic_diagram with
        edges := self.generic_diagram.edges ++ [e] }⟩) := by
    intro hsrc hdst
    have hcs : (self.generic_diagram.nodes.contains (MEdge.source (ν := ν) e)) = true :=
      (contains_iff _ _).mpr hsrc
    have hcd : (self.generic_diagram.nodes.contains (MEdge.destination (ν := ν) e)) = true :=
      (contains_iff _ _).mpr hdst
    simp only [GenericDiagramBuilder.edge, hbuild, hcs, hcd]
    simp
  refine ⟨h1, h2, h3, ?_⟩
  intro err b' herr
  by_cases hsrc : (MEdge.source (ν := ν) e) ∈ self.generic_diagram.nodes
  · by_cases hdst : (MEdge.destination (ν := ν) e) ∈ self.generic_diagram.nodes
    · rw [h3 hsrc hdst] at herr
      exact absurd (congrArg Prod.fst herr) (by simp)
    · rw [h2 hsrc hdst] at herr
      have := congrArg Prod.snd herr
      simp only at this
      rw [← this]
  · rw [h1 hsrc] at herr
    have := congrArg Prod.snd herr
    simp only at this
    rw [← this]

/-- Claim C4, witness: with only `fxA` registered, an edge from `fxA` to
the unregistered `fxB` fails with `DestinationNodeNotFound("B")` and leaves
the builder unchanged. -/
theorem C4_witness :
    GenericDiagramBuilder.edge c4Builder c4Eb
      = (.error (.Edge (.DestinationNodeNotFound "B")), c4Builder) :=
  (C4_theorem c4Builder c4Eb c4Edge (by decide)).2.1 (by decide) (by decide)

/-- Claim C5: when the node (after the auto-id step) builds successfully,
the node operation fails with `UnknownClass` and leaves the builder (and so
`nodes()`) unchanged when some declared style class's name is not among the
registered style classes; when every declared class is registered (by
name), the node is appended. -/
theorem C5_theorem {ν ε γ β : Type} [MNode ν] [MNodeBuilder β ν]
    (self : GenericDiagramBuilder ν ε γ) (nb : β) (n : ν)
    (hbuild : MNodeBuilder.build (ν := ν)
      (if (MNodeBuilder.get_id (ν := ν) nb).isNone then
        MNodeBuilder.set_id (ν := ν) nb self.generic_diagram.nodes.length
      else nb) = .ok n) :
    ((∃ c ∈ MNode.classes n,
        ∀ sc ∈ self.generic_diagram.style_classes, sc.name ≠ c.name) →
      ∃ c, self.node nb = (.error (.StyleClass (.UnknownClass c)), self)) ∧
    ((∀ c ∈ MNode.classes n,
        ∃ sc ∈ self.generic_diagram.style_classes, sc.name = c.name) →
      self.node nb = (.ok n, ⟨{ self.generic_diagram with
        nodes := self.generic_diagram.nodes ++ [n] }⟩)) := by
  constructor
  · intro hex
    obtain ⟨c, hc, hnone⟩ := hex
    have hsome : ((MNode.classes n).find? (fun class_ =>
        !(self.generic_diagram.style_classes.any (fun sc => sc.name == class_.name)))).isSome := by
      rw [List.find?_isSome]
      refine ⟨c, hc, ?_⟩
      simp only [Bool.not_eq_true']
      rw [List.any_eq_false]
      intro sc hsc
      simp only [beq_iff_eq]
      exact hnone sc hsc
    obtain ⟨c', hc'⟩ := Option.isSome_iff_exists.mp hsome
    refine ⟨c', ?_⟩
    simp only [GenericDiagramBuilder.node, hbuild, hc']
  · intro hall
    have hnone : ((MNode.classes n).find? (fun class_ =>
        !(self.generic_diagram.style_classes.any (fun sc => sc.name == class_.name)))) = none := by
      rw [List.find?_eq_none]
      intro c hc
      obtain ⟨sc, hsc, hname⟩ := hall c hc
      simp only [Bool.not_eq_true', Bool.not_eq_false]
      rw [List.any_eq_true]
      exact ⟨sc, hsc, by simp [hname]⟩
    simp only [GenericDiagramBuilder.node, hbuild, hnone]

/-- Claim C5, witness: a node declaring the unregistered class `"unknown"`
is rejected with `UnknownClass` and the builder is unchanged. -/
theorem C5_witness :
    ∃ c, GenericDiagramBuilder.node (default : FCDiagramBuilder) c5Nb
      = (.error (.StyleClass (.UnknownClass c)), (default : FCDiagramBuilder)) :=
  (C5_theorem default c5Nb c5Node (by decide)).1 ⟨fxClass, by decide, by decide⟩

/-- A flowchart edge built after `id(k)` carries id `k`. -/
theorem edge_build_id_of_set (eb : FlowchartEdgeBuilder) (k : Nat) (e : FlowchartEdge)
    (h : (eb.id_ k).build = .ok e) : e.id = k := by
  unfold FlowchartEdgeBuilder.build at h
  split at h
  · simp at h
  · revert h
    simp only [FlowchartEdgeBuilder.id_]
    cases hg : eb.edge_builder.build with
    | error er => intro h; simp at h
    | ok g =>
      intro h
      simp only [hg, Except.ok.injEq] at h
      cases h
      rfl

/-- Claim C9: `FlowchartBuilder::edge` overwrites the edge builder's id with
the current `number_of_edges()` — whatever id the caller set — so a
successfully added edge carries id equal to the count of edges already
stored, and is appended after them. -/
theorem C9_theorem (self : FlowchartBuilder) (eb : FlowchartEdgeBuilder)
    (e : FlowchartEdge) (b' : FlowchartBuilder)
    (h : self.edge eb = (.ok e, b')) :
    e.id = self.number_of_edges ∧
    b'.generic.generic_diagram.edges = self.generic.generic_diagram.edges ++ [e] := by
  simp only [FlowchartBuilder.edge, GenericDiagramBuilder.edge] at h
  rw [show MEdgeBuilder.build (ε := FlowchartEdge) (eb.id_ self.number_of_edges)
      = (eb.id_ self.number_of_edges).build from rfl] at h
  cases hb : (eb.id_ self.number_of_edges).build with
  | error er => simp [hb] at h
  | ok e0 =>
    simp only [hb] at h
    by_cases hsrc : MEdge.source (ν := FlowchartNode) e0
        ∈ self.generic.generic_diagram.nodes
    · by_cases hdst : MEdge.destination (ν := FlowchartNode) e0
          ∈ self.generic.generic_diagram.nodes
      · simp [hsrc, hdst] at h
        obtain ⟨he, hb'⟩ := h
        subst he
        subst hb'
        exact ⟨edge_build_id_of_set eb _ _ hb, rfl⟩
      · simp [hsrc, hdst] at h
    · simp [hsrc] at h

/-- Claim C9, witness: an edge builder carrying caller-set id 99 is stored
with id 0 on a builder with no edges. -/
theorem C9_witness :
    c9Edge.id = c9Builder.number_of_edges ∧
    c9After.generic.generic_diagram.edges
      = c9Builder.generic.generic_diagram.edges ++ [c9Edge] :=
  C9_theorem c9Builder c9Eb c9Edge c9After (by decide)

set_option maxRecDepth 8000

/-- Claim C3, counterexample: in the flowchart built by `c3Run`, the node
with id 2 appears in the subnode lists of both registered subgraph nodes
(subnode id lists `[[], [2], [2]]`), yet the rendered output contains its
node line (`v2@...`) twice — once inside each owner — not exactly once
inside its first owner. -/
theorem C3_counterexample :
    c3Run.map (fun fc => (fc.nodes.map (fun n => n.subnodes.map FlowchartNode.id),
        substrCount "v2@" fc.fmt)) = .ok ([[], [2], [2]], 2) := by decide

/-- Claim C3 (amended): the renderer's top-level node section renders, in
insertion order, exactly the nodes outside the exclusion list, where the
exclusion list is accumulated by scanning the nodes in insertion order,
skipping nodes already in the list, and appending each remaining node's
subnode list (sorting the list before the top-level scan does not affect
membership). A node is thereby skipped at top level whenever it is in the
exclusion list, but every rendered subgraph renders its entire subnode list
in its body, so a node owned by several rendered subgraphs appears once per
owner rather than exactly once overall — see the counterexample. -/
theorem C3_theorem (tab_count : Nat) (nodes : List FlowchartNode) :
    flowchartNodesSection tab_count
        (sortUnstable FlowchartNode.le (flowchartSubgraphNodes nodes)) nodes
      = String.join ((nodes.filter
          (fun n => !((flowchartSubgraphNodes nodes).contains n))).map
          (FlowchartNode.fmtTabbed (tab_count + 1))) := by
  unfold flowchartNodesSection
  have hfun : (fun (acc : String) (node : FlowchartNode) =>
      if (sortUnstable FlowchartNode.le (flowchartSubgraphNodes nodes)).contains node
      then acc else acc ++ FlowchartNode.fmtTabbed (tab_count + 1) node)
      = (fun (acc : String) (node : FlowchartNode) =>
      if (flowchartSubgraphNodes nodes).contains node
      then acc else acc ++ FlowchartNode.fmtTabbed (tab_count + 1) node) := by
    funext acc node
    rw [contains_sortUnstable]
  rw [hfun]
  have h := foldl_skip (fun n => (flowchartSubgraphNodes nodes).contains n)
    (FlowchartNode.fmtTabbed (tab_count + 1)) nodes ""
  simpa using h

end Mermaid
